import Mathlib

/-!
# VW ID vehicle API client (`internal/vehicle/id/api.go`)

A shallow embedding of the client: the four operations `Vehicles`, `Status`,
`Action` and `Any`, the status records with their JSON field names, and the
parts of the Go standard library the operations run through (`fmt.Sprintf`,
`strings.Contains`, `encoding/json` decoding).

Conventions.
* Go strings are Lean strings; byte-level scanning for ASCII bytes coincides
  with character-level scanning on valid UTF-8.
* A Go `(value, error)` result is a value paired with `Option Error`;
  `none` is the nil error.
* A nil slice is the empty list; a nil `interface{}` is `json.Value.nil`.
* Go `int` is 64 bits wide.
* Every operation also reports the HTTP requests it handed to the transport.
-/

namespace VehicleID

/-! ## Errors and HTTP exchange -/

/-- Error values the client can return. -/
inductive Error where
  /-- `http.NewRequest` rejected the method or the URL. -/
  | build (msg : String)
  /-- The round trip failed: network failure or a rejected response status. -/
  | transport (msg : String)
  /-- The response body is not valid JSON (`json.SyntaxError`). -/
  | invalidJSON
  /-- A JSON value does not fit the Go type it is decoded into (`json.UnmarshalTypeError`). -/
  | unmarshalType (value : String) (goType : String)
  deriving DecidableEq, Repr

/-- JSON number literal: an integer literal, or a literal with a fraction or
exponent part denoting `m * 10 ^ e`. -/
inductive Number where
  | int (i : Int)
  | decimal (m : Int) (e : Int)
  deriving DecidableEq, Repr

/-- Parsed JSON document. Object members are kept in document order, repeated
keys included. -/
inductive JSON where
  | null
  | bool (b : Bool)
  | number (n : Number)
  | string (s : String)
  | array (xs : List JSON)
  | object (members : List (String × JSON))
  deriving Repr

/-- Response body as the decoder sees it: not valid JSON, or a JSON document. -/
inductive Body where
  | invalid
  | json (j : JSON)

/-- What the transport answers to a request. -/
inductive Reply where
  | failure (e : Error)
  | body (b : Body)

/-- An outbound HTTP request. `body = none` is the nil `io.Reader`; `header`
lists the entries of the header map in the order of the map literal. -/
structure Request where
  method : String
  uri : String
  body : Option String
  header : List (String × String)
  deriving DecidableEq, Repr

namespace http

/-- Go constant `http.MethodGet`. -/
def MethodGet : String := "GET"

/-- Go constant `http.MethodPost`. -/
def MethodPost : String := "POST"

end http

/-! ## `strings.Contains` -/

namespace strings

/-- Substring test on character lists: some suffix of `s` starts with `sub`. -/
def containsChars (s sub : List Char) : Bool :=
  match s with
  | [] => sub.isEmpty
  | c :: cs => sub.isPrefixOf (c :: cs) || containsChars cs sub

/-- Go `strings.Contains`. -/
def Contains (s substr : String) : Bool :=
  containsChars s.data substr.data

end strings

/-! ## `fmt.Sprintf` with string operands -/

namespace fmt

/-- Scanner position of `doPrintf`: copying literal text, or inside a
directive after `%` with the width digits read so far. -/
inductive Scan where
  | text
  | verb (wid : Option Nat)

/-- Go `fmt.padString` without the minus and zero flags: pad on the left with
spaces up to the width, counted in runes. -/
def padString (wid : Option Nat) (s : List Char) : List Char :=
  match wid with
  | none => s
  | some n => List.replicate (n - s.length) ' ' ++ s

/-- Go `pp.printArg` for a string operand: `%s` and `%v` print the string,
any other verb prints the bad-verb form `%!c(string=...)`. -/
def printArg (wid : Option Nat) (verb : Char) (arg : String) : List Char :=
  if verb = 's' ∨ verb = 'v' then padString wid arg.data
  else "%!".data ++ [verb] ++ "(string=".data ++ padString wid arg.data ++ [')']

/-- Go `pp.missingArg`: a verb with no operand left. -/
def missingArg (verb : Char) : List Char :=
  "%!".data ++ [verb] ++ "(MISSING)".data

/-- Operands left over after the format is exhausted, separated by commas. -/
def extraList : List String → List Char
  | [] => []
  | [a] => "string=".data ++ a.data
  | a :: b :: rest => "string=".data ++ a.data ++ ", ".data ++ extraList (b :: rest)

/-- Tail of `doPrintf`: the `%!(EXTRA ...)` report for unused operands. -/
def extraArgs (a : List String) : List Char :=
  match a with
  | [] => []
  | _ :: _ => "%!(EXTRA ".data ++ extraList a ++ [')']

/-- Directive characters outside the modelled fragment: flags, explicit
argument indexes, star width, precision, and the verbs `q x X T p w`. -/
def unmodelled (c : Char) : Bool :=
  c ∈ ['#', '+', '-', ' ', '[', ']', '*', '.', 'q', 'x', 'X', 'T', 'p', 'w']

/-- Go `pp.doPrintf` on string operands. Literal text is copied; `%%` prints
a percent sign and takes no operand; `%[width]verb` formats the next operand,
or reports it missing; a format ending inside a directive prints
`%!(NOVERB)`; unused operands are reported at the end. The result is `none`
when the format leaves the modelled fragment. -/
def doPrintf : Scan → List Char → List String → Option (List Char)
  | .text, [], a => some (extraArgs a)
  | .text, c :: f, a =>
    if c = '%' then doPrintf (.verb none) f a
    else (doPrintf .text f a).map (fun out => c :: out)
  | .verb _, [], a => some ("%!(NOVERB)".data ++ extraArgs a)
  | .verb wid, c :: f, a =>
    if c.isDigit then
      match wid with
      | none =>
        if c = '0' then none
        else doPrintf (.verb (some (c.toNat - 48))) f a
      | some n =>
        if n > 1000000 then none
        else doPrintf (.verb (some (n * 10 + (c.toNat - 48)))) f a
    else if c = '%' then (doPrintf .text f a).map (fun out => '%' :: out)
    else if unmodelled c then none
    else
      match a with
      | [] => (doPrintf .text f []).map (fun out => missingArg c ++ out)
      | x :: rest => (doPrintf .text f rest).map (fun out => printArg wid c x ++ out)

/-- Go `fmt.Sprintf` applied to string operands. Formats outside the
modelled fragment are formatted by `other`, about which nothing is assumed. -/
def Sprintf (other : String → List String → String) (format : String) (a : List String) : String :=
  match doPrintf .text format.data a with
  | some out => String.mk out
  | none => other format a

end fmt

/-! ## `encoding/json` decoding

The decoder of the Go standard library, on parsed JSON. A value that does not
fit the Go type it is decoded into is skipped, decoding goes on, and the
earliest such error is returned at the end together with everything that was
stored. `null` stores nothing into a string, number, bool or struct. Object
keys are matched to struct fields by JSON name, exactly or else
case-insensitively; unknown keys are skipped. -/

namespace json

/-- Go `decodeState.saveError`: the earliest error is kept. -/
def saveError (saved new : Option Error) : Option Error :=
  match saved with
  | none => new
  | some e => some e

/-- Name of a JSON value's kind, as `UnmarshalTypeError.Value` reports it. -/
def kind : JSON → String
  | .null => "null"
  | .bool _ => "bool"
  | .number _ => "number"
  | .string _ => "string"
  | .array _ => "array"
  | .object _ => "object"

/-- Folding of one character for key matching: ASCII upper case to lower
case, the Kelvin sign to `k`, the long s to `s`. -/
def foldChar (c : Char) : Char :=
  if c = '\u212A' then 'k'
  else if c = '\u017F' then 's'
  else c.toLower

/-- Case-insensitive comparison of an object key with an ASCII field name. -/
def equalFold (name key : String) : Bool :=
  name.data.map foldChar == key.data.map foldChar

/-- Field lookup of the struct decoder: the field whose JSON name is exactly
the key, otherwise the first field whose name matches it case-insensitively. -/
def fieldIndex (names : List String) (key : String) : Option Nat :=
  match names.indexOf? key with
  | some i => some i
  | none => names.findIdx? (fun name => equalFold name key)

/-- Decode the members of a JSON object into a struct, one key at a time, in
document order. Decoding goes on after an error. -/
def decodeObject {σ : Type} (setField : String → JSON → σ → σ × Option Error) :
    List (String × JSON) → σ → σ × Option Error
  | [], s => (s, none)
  | (k, v) :: rest, s =>
    let r := setField k v s
    let r' := decodeObject setField rest r.1
    (r'.1, saveError r.2 r'.2)

/-- Decode a JSON value into a struct: `null` leaves it as it is, an object
is decoded member by member, anything else is a type error. -/
def decodeStruct {σ : Type} (goType : String)
    (setField : String → JSON → σ → σ × Option Error) (j : JSON) (s : σ) : σ × Option Error :=
  match j with
  | .null => (s, none)
  | .object members => decodeObject setField members s
  | _ => (s, some (.unmarshalType (kind j) goType))

/-- Decode a JSON value into a Go `string`. -/
def decodeString (j : JSON) (cur : String) : String × Option Error :=
  match j with
  | .null => (cur, none)
  | .string s => (s, none)
  | _ => (cur, some (.unmarshalType (kind j) "string"))

/-- Decode a JSON value into a Go `bool`. -/
def decodeBool (j : JSON) (cur : Bool) : Bool × Option Error :=
  match j with
  | .null => (cur, none)
  | .bool b => (b, none)
  | _ => (cur, some (.unmarshalType (kind j) "bool"))

/-- Width of Go `int` in bits. -/
def intSize : Nat := 64

/-- An integer is representable in Go `int`. -/
def fitsInt (i : Int) : Bool :=
  decide (-(2 ^ (intSize - 1)) ≤ i ∧ i < 2 ^ (intSize - 1))

/-- Decode a JSON value into a Go `int`: only an integer literal in range is
stored (`strconv.ParseInt`). The error names the kind of the value and leaves
the literal out. -/
def decodeInt (j : JSON) (cur : Int) : Int × Option Error :=
  match j with
  | .null => (cur, none)
  | .number (.int i) => if fitsInt i then (i, none) else (cur, some (.unmarshalType "number" "int"))
  | _ => (cur, some (.unmarshalType (kind j) "int"))

/-- A Go `float64`, written as a number literal whose nearest double it is.
Rounding is not modelled. -/
structure Float64 where
  lit : Number
  deriving DecidableEq, Repr

/-- Magnitudes from this bound on round to infinity in double precision. -/
def float64Limit : Nat := 2 ^ 1024 - 2 ^ 970

/-- The literal is in the range of `float64` (`strconv.ParseFloat` reports no
range error). -/
def fitsFloat64 : Number → Bool
  | .int i => decide (i.natAbs < float64Limit)
  | .decimal m e =>
    if 0 ≤ e then decide (m.natAbs * 10 ^ e.toNat < float64Limit)
    else decide (m.natAbs < float64Limit * 10 ^ (-e).toNat)

/-- Decode a JSON value into a Go `float64`. -/
def decodeFloat64 (j : JSON) (cur : Float64) : Float64 × Option Error :=
  match j with
  | .null => (cur, none)
  | .number n => if fitsFloat64 n then (⟨n⟩, none) else (cur, some (.unmarshalType "number" "float64"))
  | _ => (cur, some (.unmarshalType (kind j) "float64"))

/-- Decode the elements of a JSON array, element `i` into `init i`. -/
def decodeElems {α : Type} (dec : JSON → α → α × Option Error) (init : Nat → α) :
    Nat → List JSON → List α × Option Error
  | _, [] => ([], none)
  | i, j :: js =>
    let r := dec j (init i)
    let rs := decodeElems dec init (i + 1) js
    (r.1 :: rs.1, saveError r.2 rs.2)

/-- Storage an array element is decoded into: the zero value when the slice
was nil or empty, otherwise whatever the old backing array holds there
(`stale`, about which nothing is assumed). -/
def elemInit {α : Type} (zero : α) (stale : List α → Nat → α) (cur : List α) (i : Nat) : α :=
  match cur with
  | [] => zero
  | _ :: _ => stale cur i

/-- Decode a JSON value into a Go slice: `null` gives the nil slice, an array
gives one element per array element, anything else is a type error. -/
def decodeSlice {α : Type} (goType : String) (dec : JSON → α → α × Option Error)
    (zero : α) (stale : List α → Nat → α) (j : JSON) (cur : List α) : List α × Option Error :=
  match j with
  | .null => ([], none)
  | .array js => decodeElems dec (elemInit zero stale cur) 0 js
  | _ => (cur, some (.unmarshalType (kind j) goType))

/-- A Go value held in an `interface{}` after decoding: nil, `bool`,
`float64`, `string`, `[]interface{}` or `map[string]interface{}`. A map holds
each key once; a Go map has no order, and its entries are listed here by the
first occurrence of their key. -/
inductive Value where
  | nil
  | bool (b : Bool)
  | float64 (f : Float64)
  | string (s : String)
  | slice (xs : List Value)
  | map (entries : List (String × Value))

/-- Go map assignment `m[key] = v`: the value of a key already present is
replaced, a new key is added. -/
def mapStore (m : List (String × Value)) (key : String) (v : Value) : List (String × Value) :=
  match m with
  | [] => [(key, v)]
  | (k, x) :: rest => if k = key then (k, v) :: rest else (k, x) :: mapStore rest key v

/-- Go `decodeState.valueInterface`: the Go value built for a JSON value when
the target is an empty interface. A number out of the range of `float64`
becomes nil and its error is saved; decoding goes on. -/
def valueInterface : JSON → Value × Option Error
  | .null => (.nil, none)
  | .bool b => (.bool b, none)
  | .number n =>
    if fitsFloat64 n then (.float64 ⟨n⟩, none)
    else (.nil, some (.unmarshalType "number" "float64"))
  | .string s => (.string s, none)
  | .array xs => let r := arrayInterface xs; (.slice r.1, r.2)
  | .object ms => let r := objectInterface ms []; (.map r.1, r.2)
where
  /-- Go `decodeState.arrayInterface`: the elements, in order. -/
  arrayInterface : List JSON → List Value × Option Error
    | [] => ([], none)
    | x :: xs =>
      let a := valueInterface x
      let b := arrayInterface xs
      (a.1 :: b.1, saveError a.2 b.2)
  /-- Go `decodeState.objectInterface`: every member value is built and
  assigned to its key in the map `m`, in document order. -/
  objectInterface : List (String × JSON) → List (String × Value) →
      List (String × Value) × Option Error
    | [], m => (m, none)
    | (k, x) :: rest, m =>
      let a := valueInterface x
      let b := objectInterface rest (mapStore m k a.1)
      (b.1, saveError a.2 b.2)

/-- Decode a JSON value into a Go `interface{}` variable: `null` stores nil,
a number out of range stores nothing and is an error, any other value is
stored as built by `valueInterface` together with the error saved on the way. -/
def decodeInterface (j : JSON) (cur : Value) : Value × Option Error :=
  match j with
  | .null => (.nil, none)
  | .number n =>
    if fitsFloat64 n then (.float64 ⟨n⟩, none)
    else (cur, some (.unmarshalType "number" "float64"))
  | _ => valueInterface j

/-- Every number literal of the document is in the range of `float64`. -/
def allNumbersFit : JSON → Bool
  | .number n => fitsFloat64 n
  | .array xs => elementsFit xs
  | .object ms => membersFit ms
  | _ => true
where
  /-- Every number literal in the elements of an array is in range. -/
  elementsFit : List JSON → Bool
    | [] => true
    | x :: xs => allNumbersFit x && elementsFit xs
  /-- Every number literal in the member values of an object is in range. -/
  membersFit : List (String × JSON) → Bool
    | [] => true
    | (_, x) :: ms => allNumbersFit x && membersFit ms

/-- The document is an array or an object. -/
def isComposite : JSON → Bool
  | .array _ => true
  | .object _ => true
  | _ => false

end json

/-! ## Status records

Every record lists its fields with their Go zero values, the JSON name of each
field (the `json` tag, or the Go field name), and its decoder. -/

/-- BatteryStatus is the /status.batteryStatus api. -/
structure BatteryStatus where
  CarCapturedTimestamp : String := ""
  CurrentSOCPercent : Int := 0
  CruisingRangeElectricKm : Int := 0
  deriving DecidableEq, Repr

/-- JSON names of the fields of `BatteryStatus`, in declaration order. -/
def BatteryStatus.fields : List String :=
  ["CarCapturedTimestamp", "currentSOC_pct", "cruisingRangeElectric_km"]

/-- Decode the value of one object key into the field of `BatteryStatus` the key names; unknown keys are skipped. -/
def BatteryStatus.setField (key : String) (j : JSON) (s : BatteryStatus) : BatteryStatus × Option Error :=
  match json.fieldIndex BatteryStatus.fields key with
  | some 0 =>
    let r := json.decodeString j s.CarCapturedTimestamp
    ({ s with CarCapturedTimestamp := r.1 }, r.2)
  | some 1 =>
    let r := json.decodeInt j s.CurrentSOCPercent
    ({ s with CurrentSOCPercent := r.1 }, r.2)
  | some 2 =>
    let r := json.decodeInt j s.CruisingRangeElectricKm
    ({ s with CruisingRangeElectricKm := r.1 }, r.2)
  | _ => (s, none)

/-- Decode a JSON value into a `BatteryStatus`. -/
def BatteryStatus.unmarshal (j : JSON) (s : BatteryStatus) : BatteryStatus × Option Error :=
  json.decodeStruct "id.BatteryStatus" BatteryStatus.setField j s

/-- ChargingStatus is the /status.chargingStatus api. -/
structure ChargingStatus where
  CarCapturedTimestamp : String := ""
  ChargingState : String := ""
  RemainingChargingTimeToCompleteMin : Int := 0
  ChargePowerKW : Int := 0
  ChargeRateKmph : Int := 0
  deriving DecidableEq, Repr

/-- JSON names of the fields of `ChargingStatus`, in declaration order. -/
def ChargingStatus.fields : List String :=
  ["CarCapturedTimestamp", "ChargingState", "remainingChargingTimeToComplete_min", "chargePower_kW", "chargeRate_kmph"]

/-- Decode the value of one object key into the field of `ChargingStatus` the key names; unknown keys are skipped. -/
def ChargingStatus.setField (key : String) (j : JSON) (s : ChargingStatus) : ChargingStatus × Option Error :=
  match json.fieldIndex ChargingStatus.fields key with
  | some 0 =>
    let r := json.decodeString j s.CarCapturedTimestamp
    ({ s with CarCapturedTimestamp := r.1 }, r.2)
  | some 1 =>
    let r := json.decodeString j s.ChargingState
    ({ s with ChargingState := r.1 }, r.2)
  | some 2 =>
    let r := json.decodeInt j s.RemainingChargingTimeToCompleteMin
    ({ s with RemainingChargingTimeToCompleteMin := r.1 }, r.2)
  | some 3 =>
    let r := json.decodeInt j s.ChargePowerKW
    ({ s with ChargePowerKW := r.1 }, r.2)
  | some 4 =>
    let r := json.decodeInt j s.ChargeRateKmph
    ({ s with ChargeRateKmph := r.1 }, r.2)
  | _ => (s, none)

/-- Decode a JSON value into a `ChargingStatus`. -/
def ChargingStatus.unmarshal (j : JSON) (s : ChargingStatus) : ChargingStatus × Option Error :=
  json.decodeStruct "id.ChargingStatus" ChargingStatus.setField j s

/-- ChargingSettings is the /status.chargingSettings api. -/
structure ChargingSettings where
  CarCapturedTimestamp : String := ""
  MaxChargeCurrentAC : String := ""
  AutoUnlockPlugWhenCharged : String := ""
  TargetSOCPercent : Int := 0
  deriving DecidableEq, Repr

/-- JSON names of the fields of `ChargingSettings`, in declaration order. -/
def ChargingSettings.fields : List String :=
  ["CarCapturedTimestamp", "MaxChargeCurrentAC", "AutoUnlockPlugWhenCharged", "targetSOC_pct"]

/-- Decode the value of one object key into the field of `ChargingSettings` the key names; unknown keys are skipped. -/
def ChargingSettings.setField (key : String) (j : JSON) (s : ChargingSettings) : ChargingSettings × Option Error :=
  match json.fieldIndex ChargingSettings.fields key with
  | some 0 =>
    let r := json.decodeString j s.CarCapturedTimestamp
    ({ s with CarCapturedTimestamp := r.1 }, r.2)
  | some 1 =>
    let r := json.decodeString j s.MaxChargeCurrentAC
    ({ s with MaxChargeCurrentAC := r.1 }, r.2)
  | some 2 =>
    let r := json.decodeString j s.AutoUnlockPlugWhenCharged
    ({ s with AutoUnlockPlugWhenCharged := r.1 }, r.2)
  | some 3 =>
    let r := json.decodeInt j s.TargetSOCPercent
    ({ s with TargetSOCPercent := r.1 }, r.2)
  | _ => (s, none)

/-- Decode a JSON value into a `ChargingSettings`. -/
def ChargingSettings.unmarshal (j : JSON) (s : ChargingSettings) : ChargingSettings × Option Error :=
  json.decodeStruct "id.ChargingSettings" ChargingSettings.setField j s

/-- PlugStatus is the /status.plugStatus api. -/
structure PlugStatus where
  CarCapturedTimestamp : String := ""
  PlugConnectionState : String := ""
  PlugLockState : String := ""
  deriving DecidableEq, Repr

/-- JSON names of the fields of `PlugStatus`, in declaration order. -/
def PlugStatus.fields : List String :=
  ["CarCapturedTimestamp", "PlugConnectionState", "PlugLockState"]

/-- Decode the value of one object key into the field of `PlugStatus` the key names; unknown keys are skipped. -/
def PlugStatus.setField (key : String) (j : JSON) (s : PlugStatus) : PlugStatus × Option Error :=
  match json.fieldIndex PlugStatus.fields key with
  | some 0 =>
    let r := json.decodeString j s.CarCapturedTimestamp
    ({ s with CarCapturedTimestamp := r.1 }, r.2)
  | some 1 =>
    let r := json.decodeString j s.PlugConnectionState
    ({ s with PlugConnectionState := r.1 }, r.2)
  | some 2 =>
    let r := json.decodeString j s.PlugLockState
    ({ s with PlugLockState := r.1 }, r.2)
  | _ => (s, none)

/-- Decode a JSON value into a `PlugStatus`. -/
def PlugStatus.unmarshal (j : JSON) (s : PlugStatus) : PlugStatus × Option Error :=
  json.decodeStruct "id.PlugStatus" PlugStatus.setField j s

/-- ClimatisationStatus is the /status.climatisationStatus api. -/
structure ClimatisationStatus where
  CarCapturedTimestamp : String := ""
  RemainingClimatisationTimeMin : Int := 0
  ClimatisationState : String := ""
  deriving DecidableEq, Repr

/-- JSON names of the fields of `ClimatisationStatus`, in declaration order. -/
def ClimatisationStatus.fields : List String :=
  ["CarCapturedTimestamp", "remainingClimatisationTime_min", "ClimatisationState"]

/-- Decode the value of one object key into the field of `ClimatisationStatus` the key names; unknown keys are skipped. -/
def ClimatisationStatus.setField (key : String) (j : JSON) (s : ClimatisationStatus) : ClimatisationStatus × Option Error :=
  match json.fieldIndex ClimatisationStatus.fields key with
  | some 0 =>
    let r := json.decodeString j s.CarCapturedTimestamp
    ({ s with CarCapturedTimestamp := r.1 }, r.2)
  | some 1 =>
    let r := json.decodeInt j s.RemainingClimatisationTimeMin
    ({ s with RemainingClimatisationTimeMin := r.1 }, r.2)
  | some 2 =>
    let r := json.decodeString j s.ClimatisationState
    ({ s with ClimatisationState := r.1 }, r.2)
  | _ => (s, none)

/-- Decode a JSON value into a `ClimatisationStatus`. -/
def ClimatisationStatus.unmarshal (j : JSON) (s : ClimatisationStatus) : ClimatisationStatus × Option Error :=
  json.decodeStruct "id.ClimatisationStatus" ClimatisationStatus.setField j s

/-- ClimatisationSettings is the /status.climatisationSettings api. -/
structure ClimatisationSettings where
  CarCapturedTimestamp : String := ""
  TargetTemperatureK : json.Float64 := ⟨.int 0⟩
  TargetTemperatureC : json.Float64 := ⟨.int 0⟩
  ClimatisationWithoutExternalPower : Bool := false
  ClimatisationAtUnlock : Bool := false
  WindowHeatingEnabled : Bool := false
  ZoneFrontLeftEnabled : Bool := false
  ZoneFrontRightEnabled : Bool := false
  ZoneRearLeftEnabled : Bool := false
  ZoneRearRightEnabled : Bool := false
  deriving DecidableEq, Repr

/-- JSON names of the fields of `ClimatisationSettings`, in declaration order. -/
def ClimatisationSettings.fields : List String :=
  ["CarCapturedTimestamp", "targetTemperature_K", "targetTemperature_C", "ClimatisationWithoutExternalPower", "ClimatisationAtUnlock", "WindowHeatingEnabled", "ZoneFrontLeftEnabled", "ZoneFrontRightEnabled", "ZoneRearLeftEnabled", "ZoneRearRightEnabled"]

/-- Decode the value of one object key into the field of `ClimatisationSettings` the key names; unknown keys are skipped. -/
def ClimatisationSettings.setField (key : String) (j : JSON) (s : ClimatisationSettings) : ClimatisationSettings × Option Error :=
  match json.fieldIndex ClimatisationSettings.fields key with
  | some 0 =>
    let r := json.decodeString j s.CarCapturedTimestamp
    ({ s with CarCapturedTimestamp := r.1 }, r.2)
  | some 1 =>
    let r := json.decodeFloat64 j s.TargetTemperatureK
    ({ s with TargetTemperatureK := r.1 }, r.2)
  | some 2 =>
    let r := json.decodeFloat64 j s.TargetTemperatureC
    ({ s with TargetTemperatureC := r.1 }, r.2)
  | some 3 =>
    let r := json.decodeBool j s.ClimatisationWithoutExternalPower
    ({ s with ClimatisationWithoutExternalPower := r.1 }, r.2)
  | some 4 =>
    let r := json.decodeBool j s.ClimatisationAtUnlock
    ({ s with ClimatisationAtUnlock := r.1 }, r.2)
  | some 5 =>
    let r := json.decodeBool j s.WindowHeatingEnabled
    ({ s with WindowHeatingEnabled := r.1 }, r.2)
  | some 6 =>
    let r := json.decodeBool j s.ZoneFrontLeftEnabled
    ({ s with ZoneFrontLeftEnabled := r.1 }, r.2)
  | some 7 =>
    let r := json.decodeBool j s.ZoneFrontRightEnabled
    ({ s with ZoneFrontRightEnabled := r.1 }, r.2)
  | some 8 =>
    let r := json.decodeBool j s.ZoneRearLeftEnabled
    ({ s with ZoneRearLeftEnabled := r.1 }, r.2)
  | some 9 =>
    let r := json.decodeBool j s.ZoneRearRightEnabled
    ({ s with ZoneRearRightEnabled := r.1 }, r.2)
  | _ => (s, none)

/-- Decode a JSON value into a `ClimatisationSettings`. -/
def ClimatisationSettings.unmarshal (j : JSON) (s : ClimatisationSettings) : ClimatisationSettings × Option Error :=
  json.decodeStruct "id.ClimatisationSettings" ClimatisationSettings.setField j s

/-- The anonymous struct of RangeStatus.PrimaryEngine. The Go field Type is written Type_. -/
structure PrimaryEngine where
  Type_ : String := ""
  CurrentSOCPercent : Int := 0
  RemainingRangeKm : Int := 0
  deriving DecidableEq, Repr

/-- JSON names of the fields of `PrimaryEngine`, in declaration order. -/
def PrimaryEngine.fields : List String :=
  ["Type", "currentSOC_pct", "remainingRange_km"]

/-- Decode the value of one object key into the field of `PrimaryEngine` the key names; unknown keys are skipped. -/
def PrimaryEngine.setField (key : String) (j : JSON) (s : PrimaryEngine) : PrimaryEngine × Option Error :=
  match json.fieldIndex PrimaryEngine.fields key with
  | some 0 =>
    let r := json.decodeString j s.Type_
    ({ s with Type_ := r.1 }, r.2)
  | some 1 =>
    let r := json.decodeInt j s.CurrentSOCPercent
    ({ s with CurrentSOCPercent := r.1 }, r.2)
  | some 2 =>
    let r := json.decodeInt j s.RemainingRangeKm
    ({ s with RemainingRangeKm := r.1 }, r.2)
  | _ => (s, none)

/-- Decode a JSON value into a `PrimaryEngine`. -/
def PrimaryEngine.unmarshal (j : JSON) (s : PrimaryEngine) : PrimaryEngine × Option Error :=
  json.decodeStruct "struct" PrimaryEngine.setField j s

/-- RangeStatus is the /status.rangeStatus api. -/
structure RangeStatus where
  CarCapturedTimestamp : String := ""
  CarType : String := ""
  PrimaryEngine : PrimaryEngine := {}
  TotalRangeKm : Int := 0
  deriving DecidableEq, Repr

/-- JSON names of the fields of `RangeStatus`, in declaration order. -/
def RangeStatus.fields : List String :=
  ["CarCapturedTimestamp", "CarType", "PrimaryEngine", "totalRange_km"]

/-- Decode the value of one object key into the field of `RangeStatus` the key names; unknown keys are skipped. -/
def RangeStatus.setField (key : String) (j : JSON) (s : RangeStatus) : RangeStatus × Option Error :=
  match json.fieldIndex RangeStatus.fields key with
  | some 0 =>
    let r := json.decodeString j s.CarCapturedTimestamp
    ({ s with CarCapturedTimestamp := r.1 }, r.2)
  | some 1 =>
    let r := json.decodeString j s.CarType
    ({ s with CarType := r.1 }, r.2)
  | some 2 =>
    let r := PrimaryEngine.unmarshal j s.PrimaryEngine
    ({ s with PrimaryEngine := r.1 }, r.2)
  | some 3 =>
    let r := json.decodeInt j s.TotalRangeKm
    ({ s with TotalRangeKm := r.1 }, r.2)
  | _ => (s, none)

/-- Decode a JSON value into a `RangeStatus`. -/
def RangeStatus.unmarshal (j : JSON) (s : RangeStatus) : RangeStatus × Option Error :=
  json.decodeStruct "id.RangeStatus" RangeStatus.setField j s

/-- The anonymous struct of Status.Data. ClimatisationStatus may be currently not available. -/
structure StatusData where
  BatteryStatus : BatteryStatus := {}
  ChargingStatus : ChargingStatus := {}
  ChargingSettings : ChargingSettings := {}
  PlugStatus : PlugStatus := {}
  RangeStatus : RangeStatus := {}
  ClimatisationSettings : ClimatisationSettings := {}
  ClimatisationStatus : ClimatisationStatus := {}
  deriving DecidableEq, Repr

/-- JSON names of the fields of `StatusData`, in declaration order. -/
def StatusData.fields : List String :=
  ["BatteryStatus", "ChargingStatus", "ChargingSettings", "PlugStatus", "RangeStatus", "ClimatisationSettings", "ClimatisationStatus"]

/-- Decode the value of one object key into the field of `StatusData` the key names; unknown keys are skipped. -/
def StatusData.setField (key : String) (j : JSON) (s : StatusData) : StatusData × Option Error :=
  match json.fieldIndex StatusData.fields key with
  | some 0 =>
    let r := BatteryStatus.unmarshal j s.BatteryStatus
    ({ s with BatteryStatus := r.1 }, r.2)
  | some 1 =>
    let r := ChargingStatus.unmarshal j s.ChargingStatus
    ({ s with ChargingStatus := r.1 }, r.2)
  | some 2 =>
    let r := ChargingSettings.unmarshal j s.ChargingSettings
    ({ s with ChargingSettings := r.1 }, r.2)
  | some 3 =>
    let r := PlugStatus.unmarshal j s.PlugStatus
    ({ s with PlugStatus := r.1 }, r.2)
  | some 4 =>
    let r := RangeStatus.unmarshal j s.RangeStatus
    ({ s with RangeStatus := r.1 }, r.2)
  | some 5 =>
    let r := ClimatisationSettings.unmarshal j s.ClimatisationSettings
    ({ s with ClimatisationSettings := r.1 }, r.2)
  | some 6 =>
    let r := ClimatisationStatus.unmarshal j s.ClimatisationStatus
    ({ s with ClimatisationStatus := r.1 }, r.2)
  | _ => (s, none)

/-- Decode a JSON value into a `StatusData`. -/
def StatusData.unmarshal (j : JSON) (s : StatusData) : StatusData × Option Error :=
  json.decodeStruct "struct" StatusData.setField j s

/-- Status is the /status api. -/
structure Status where
  Data : StatusData := {}
  deriving DecidableEq, Repr

/-- JSON names of the fields of `Status`, in declaration order. -/
def Status.fields : List String :=
  ["Data"]

/-- Decode the value of one object key into the field of `Status` the key names; unknown keys are skipped. -/
def Status.setField (key : String) (j : JSON) (s : Status) : Status × Option Error :=
  match json.fieldIndex Status.fields key with
  | some 0 =>
    let r := StatusData.unmarshal j s.Data
    ({ s with Data := r.1 }, r.2)
  | _ => (s, none)

/-- Decode a JSON value into a `Status`. -/
def Status.unmarshal (j : JSON) (s : Status) : Status × Option Error :=
  json.decodeStruct "id.Status" Status.setField j s

/-! ## The `/vehicles` response -/

/-- One record of the `data` array of the `/vehicles` response. -/
structure Vehicle where
  VIN : String := ""
  Nickname : String := ""
  deriving DecidableEq, Repr

/-- JSON names of the fields of `Vehicle`, in declaration order. -/
def Vehicle.fields : List String :=
  ["VIN", "Nickname"]

/-- Decode the value of one object key into the field of `Vehicle` the key names; unknown keys are skipped. -/
def Vehicle.setField (key : String) (j : JSON) (s : Vehicle) : Vehicle × Option Error :=
  match json.fieldIndex Vehicle.fields key with
  | some 0 =>
    let r := json.decodeString j s.VIN
    ({ s with VIN := r.1 }, r.2)
  | some 1 =>
    let r := json.decodeString j s.Nickname
    ({ s with Nickname := r.1 }, r.2)
  | _ => (s, none)

/-- Decode a JSON value into a `Vehicle`. -/
def Vehicle.unmarshal (j : JSON) (s : Vehicle) : Vehicle × Option Error :=
  json.decodeStruct "struct" Vehicle.setField j s

/-- The local variable `vehicles` of `API.Vehicles`: a struct with the one
field `Data`, a slice of records. -/
structure VehiclesResponse where
  Data : List Vehicle := []
  deriving DecidableEq, Repr

/-- JSON names of the fields of `VehiclesResponse`. -/
def VehiclesResponse.fields : List String :=
  ["Data"]

/-- Decode the value of one object key into `VehiclesResponse`; unknown keys are skipped. -/
def VehiclesResponse.setField (stale : List Vehicle → Nat → Vehicle)
    (key : String) (j : JSON) (s : VehiclesResponse) : VehiclesResponse × Option Error :=
  match json.fieldIndex VehiclesResponse.fields key with
  | some 0 =>
    let r := json.decodeSlice "[]struct" Vehicle.unmarshal {} stale j s.Data
    ({ s with Data := r.1 }, r.2)
  | _ => (s, none)

/-- Decode a JSON value into a `VehiclesResponse`. -/
def VehiclesResponse.unmarshal (stale : List Vehicle → Nat → Vehicle)
    (j : JSON) (s : VehiclesResponse) : VehiclesResponse × Option Error :=
  json.decodeStruct "struct" (VehiclesResponse.setField stale) j s

/-! ## URLs `http.NewRequest` refuses -/

namespace url

/-- Go `ishex`. -/
def ishex (c : Char) : Bool :=
  ('0' ≤ c && c ≤ '9') || ('a' ≤ c && c ≤ 'f') || ('A' ≤ c && c ≤ 'F')

/-- The text starts with two hex digits. -/
def twoHex : List Char → Bool
  | a :: b :: _ => ishex a && ishex b
  | _ => false

/-- Part of a URL the scan is in. `url.Parse` cuts the fragment off at the
first `#` and the query off at the first `?` before it. -/
inductive Part where
  | path
  | query
  | fragment

/-- A percent sign that is not followed by two hex digits stands outside the
query. `url.Parse` unescapes the path and the fragment and reports such a
sign as an invalid URL escape; it keeps the query as it is. -/
def badEscape : Part → List Char → Bool
  | _, [] => false
  | .query, c :: rest => badEscape (if c = '#' then .fragment else .query) rest
  | .fragment, c :: rest => (c = '%' && !twoHex rest) || badEscape .fragment rest
  | .path, c :: rest =>
    if c = '#' then badEscape .fragment rest
    else if c = '?' then badEscape .query rest
    else (c = '%' && !twoHex rest) || badEscape .path rest

/-- Go `stringContainsCTLByte`: an ASCII control character occurs. -/
def containsCTL (s : List Char) : Bool :=
  s.any (fun c => c.toNat < 32 || c.toNat = 127)

/-- Two grounds on which `url.Parse`, and with it `http.NewRequest`, refuses a
URL: a control character, and an invalid percent escape in the path or the
fragment. Other grounds (a malformed scheme, host or port) are left out. -/
def refused (uri : String) : Bool :=
  containsCTL uri.data || badEscape .path uri.data

end url

/-! ## Collaborators -/

namespace vw

/-- Modelled from the spec: `Identity` of package `internal/vehicle/vw`, which
is not among the sources. The spec: the Identity "holds a possibly-refreshed
bearer token" and "supplies `Token() -> string`". -/
structure Identity where
  token : String

/-- Modelled from the spec: `Identity.Token`, the single read method; it
returns the token the identity holds now. -/
def Identity.Token (i : Identity) : String :=
  i.token

end vw

/-- What an operation finds around it when it is called: the identities in
memory, by address; which method and URL `http.NewRequest` rejects; how
`fmt` formats what is outside the modelled fragment; what an old backing
array of vehicle records holds. -/
structure World where
  identities : Nat → vw.Identity
  newRequestError : String → String → Option Error
  sprintfOther : String → List String → String
  staleVehicle : List Vehicle → Nat → Vehicle

/-- The identity provider refreshes the token of the identity at `addr`. -/
def World.refresh (w : World) (addr : Nat) (token : String) : World :=
  { w with identities := fun a => if a = addr then ⟨token⟩ else w.identities a }

namespace request

/-- Modelled from the spec: `New` of package `util/request`, which is not
among the sources. The spec: "build request → attach auth header", and a
"request-construction error (malformed URL/template)" is "surfaced as a
normal error value". The request carries the method, URL, body and headers
it was given. -/
def New (w : World) (method uri : String) (data : Option String)
    (headers : List (String × String)) : Except Error Request :=
  match w.newRequestError method uri with
  | some e => .error e
  | none => .ok { method := method, uri := uri, body := data, header := headers }

/-- The HTTP helper of package `util/request`: the client that carries out a
round trip. -/
structure Helper where
  Do : Request → Reply

/-- Modelled from the spec: `Helper.DoJSON` of package `util/request`, which
is not among the sources. The spec: "execute → decode JSON body into a typed
result or propagate the transport/decode error"; "a transport error
short-circuits and the typed result is not populated"; a decode error is a
"response body" that "is not valid JSON or does not match the expected
shape". The body is decoded into `res` by the decoder of its Go type. -/
def Helper.DoJSON {α : Type} (h : Helper) (unmarshal : JSON → α → α × Option Error)
    (req : Request) (res : α) : α × Option Error :=
  match h.Do req with
  | .failure e => (res, some e)
  | .body .invalid => (res, some .invalidJSON)
  | .body (.json j) => unmarshal j res

end request

/-! ## The client -/

/-- API is an api.Vehicle implementation for VW ID cars. `identity` is the
address of the identity the client refers to. -/
structure API where
  Helper : request.Helper
  identity : Nat

/-- Action kind `charging`. -/
def ActionCharge : String := "charging"

/-- Action value `start` of charging. -/
def ActionChargeStart : String := "start"

/-- Action value `stop` of charging. -/
def ActionChargeStop : String := "stop"

/-- Action value `settings` of charging; body: targetSOC_pct. -/
def ActionChargeSettings : String := "settings"

/-- Action kind `climatisation`. -/
def ActionClimatisation : String := "climatisation"

/-- Action value `start` of climatisation. -/
def ActionClimatisationStart : String := "start"

/-- Action value `stop` of climatisation. -/
def ActionClimatisationStop : String := "stop"

/-- NewAPI creates a new vehicle client from the helper made for the logger
and the identity reference. -/
def NewAPI (helper : request.Helper) (identity : Nat) : API :=
  { Helper := helper, identity := identity }

/-- Result of one call: the returned value, the returned error, and the
requests handed to the transport during the call. -/
structure Outcome (α : Type) where
  res : α
  err : Option Error
  sent : List Request

/-- Vehicles implements the /vehicles response. -/
def API.Vehicles (w : World) (v : API) : Outcome (List String) :=
  let uri := "https://mobileapi.apps.emea.vwapps.io/vehicles"
  match request.New w http.MethodGet uri none
      [("Accept", "application/json"),
       ("Authorization", "Bearer " ++ (w.identities v.identity).Token)] with
  | .error err => { res := [], err := some err, sent := [] }
  | .ok req =>
    let r := v.Helper.DoJSON (VehiclesResponse.unmarshal w.staleVehicle) req {}
    { res := r.1.Data.foldl (fun res x => res ++ [x.VIN]) [], err := r.2, sent := [req] }

/-- Status implements the /status response. -/
def API.Status (w : World) (v : API) (vin : String) : Outcome VehicleID.Status :=
  let uri := fmt.Sprintf w.sprintfOther
    "https://mobileapi.apps.emea.vwapps.io/vehicles/%s/status" [vin]
  match request.New w http.MethodGet uri none
      [("Accept", "application/json"),
       ("Authorization", "Bearer " ++ (w.identities v.identity).Token)] with
  | .error err => { res := {}, err := some err, sent := [] }
  | .ok req =>
    let r := v.Helper.DoJSON VehicleID.Status.unmarshal req {}
    { res := r.1, err := r.2, sent := [req] }

/-- Action implements vehicle actions. -/
def API.Action (w : World) (v : API) (vin action value : String) : Outcome Unit :=
  let uri := fmt.Sprintf w.sprintfOther
    "https://mobileapi.apps.emea.vwapps.io/vehicles/%s/%s/%s" [vin, action, value]
  match request.New w http.MethodPost uri none
      [("Accept", "application/json"),
       ("Authorization", "Bearer " ++ (w.identities v.identity).Token)] with
  | .error err => { res := (), err := some err, sent := [] }
  | .ok req =>
    let r := v.Helper.DoJSON json.decodeInterface req .nil
    { res := (), err := r.2, sent := [req] }

/-- Any implements any api response. -/
def API.Any (w : World) (v : API) (uri vin : String) : Outcome json.Value :=
  let uri := if strings.Contains uri "%s" then fmt.Sprintf w.sprintfOther uri [vin] else uri
  match request.New w http.MethodGet uri none
      [("Accept", "application/json"),
       ("Authorization", "Bearer " ++ (w.identities v.identity).Token)] with
  | .error err => { res := .nil, err := some err, sent := [] }
  | .ok req =>
    let r := v.Helper.DoJSON json.decodeInterface req .nil
    { res := r.1, err := r.2, sent := [req] }

/-! ## Wire form of a status

The JSON document that carries a given status: one object per record, one
member per field, keyed by the wire name of the field (the `json` tag where
the source gives one, else the field name with a lower-case initial). A
record is valid when its integers are in the range of Go `int` and its
temperatures in the range of `float64`. -/

/-- Wire form of a `BatteryStatus`. -/
def BatteryStatus.wire (s : BatteryStatus) : JSON :=
  .object
    [("carCapturedTimestamp", .string s.CarCapturedTimestamp),
     ("currentSOC_pct", .number (.int s.CurrentSOCPercent)),
     ("cruisingRangeElectric_km", .number (.int s.CruisingRangeElectricKm))]

/-- Every number of the `BatteryStatus` fits its Go type. -/
def BatteryStatus.valid (s : BatteryStatus) : Bool :=
  json.fitsInt s.CurrentSOCPercent &&
  json.fitsInt s.CruisingRangeElectricKm

/-- Wire form of a `ChargingStatus`. -/
def ChargingStatus.wire (s : ChargingStatus) : JSON :=
  .object
    [("carCapturedTimestamp", .string s.CarCapturedTimestamp),
     ("chargingState", .string s.ChargingState),
     ("remainingChargingTimeToComplete_min", .number (.int s.RemainingChargingTimeToCompleteMin)),
     ("chargePower_kW", .number (.int s.ChargePowerKW)),
     ("chargeRate_kmph", .number (.int s.ChargeRateKmph))]

/-- Every number of the `ChargingStatus` fits its Go type. -/
def ChargingStatus.valid (s : ChargingStatus) : Bool :=
  json.fitsInt s.RemainingChargingTimeToCompleteMin &&
  json.fitsInt s.ChargePowerKW &&
  json.fitsInt s.ChargeRateKmph

/-- Wire form of a `ChargingSettings`. -/
def ChargingSettings.wire (s : ChargingSettings) : JSON :=
  .object
    [("carCapturedTimestamp", .string s.CarCapturedTimestamp),
     ("maxChargeCurrentAC", .string s.MaxChargeCurrentAC),
     ("autoUnlockPlugWhenCharged", .string s.AutoUnlockPlugWhenCharged),
     ("targetSOC_pct", .number (.int s.TargetSOCPercent))]

/-- Every number of the `ChargingSettings` fits its Go type. -/
def ChargingSettings.valid (s : ChargingSettings) : Bool :=
  json.fitsInt s.TargetSOCPercent

/-- Wire form of a `PlugStatus`. -/
def PlugStatus.wire (s : PlugStatus) : JSON :=
  .object
    [("carCapturedTimestamp", .string s.CarCapturedTimestamp),
     ("plugConnectionState", .string s.PlugConnectionState),
     ("plugLockState", .string s.PlugLockState)]

/-- Every number of the `PlugStatus` fits its Go type. -/
def PlugStatus.valid (_ : PlugStatus) : Bool :=
  true

/-- Wire form of a `ClimatisationStatus`. -/
def ClimatisationStatus.wire (s : ClimatisationStatus) : JSON :=
  .object
    [("carCapturedTimestamp", .string s.CarCapturedTimestamp),
     ("remainingClimatisationTime_min", .number (.int s.RemainingClimatisationTimeMin)),
     ("climatisationState", .string s.ClimatisationState)]

/-- Every number of the `ClimatisationStatus` fits its Go type. -/
def ClimatisationStatus.valid (s : ClimatisationStatus) : Bool :=
  json.fitsInt s.RemainingClimatisationTimeMin

/-- Wire form of a `ClimatisationSettings`. -/
def ClimatisationSettings.wire (s : ClimatisationSettings) : JSON :=
  .object
    [("carCapturedTimestamp", .string s.CarCapturedTimestamp),
     ("targetTemperature_K", .number s.TargetTemperatureK.lit),
     ("targetTemperature_C", .number s.TargetTemperatureC.lit),
     ("climatisationWithoutExternalPower", .bool s.ClimatisationWithoutExternalPower),
     ("climatisationAtUnlock", .bool s.ClimatisationAtUnlock),
     ("windowHeatingEnabled", .bool s.WindowHeatingEnabled),
     ("zoneFrontLeftEnabled", .bool s.ZoneFrontLeftEnabled),
     ("zoneFrontRightEnabled", .bool s.ZoneFrontRightEnabled),
     ("zoneRearLeftEnabled", .bool s.ZoneRearLeftEnabled),
     ("zoneRearRightEnabled", .bool s.ZoneRearRightEnabled)]

/-- Every number of the `ClimatisationSettings` fits its Go type. -/
def ClimatisationSettings.valid (s : ClimatisationSettings) : Bool :=
  json.fitsFloat64 s.TargetTemperatureK.lit &&
  json.fitsFloat64 s.TargetTemperatureC.lit

/-- Wire form of a `PrimaryEngine`. -/
def PrimaryEngine.wire (s : PrimaryEngine) : JSON :=
  .object
    [("type", .string s.Type_),
     ("currentSOC_pct", .number (.int s.CurrentSOCPercent)),
     ("remainingRange_km", .number (.int s.RemainingRangeKm))]

/-- Every number of the `PrimaryEngine` fits its Go type. -/
def PrimaryEngine.valid (s : PrimaryEngine) : Bool :=
  json.fitsInt s.CurrentSOCPercent &&
  json.fitsInt s.RemainingRangeKm

/-- Wire form of a `RangeStatus`. -/
def RangeStatus.wire (s : RangeStatus) : JSON :=
  .object
    [("carCapturedTimestamp", .string s.CarCapturedTimestamp),
     ("carType", .string s.CarType),
     ("primaryEngine", s.PrimaryEngine.wire),
     ("totalRange_km", .number (.int s.TotalRangeKm))]

/-- Every number of the `RangeStatus` fits its Go type. -/
def RangeStatus.valid (s : RangeStatus) : Bool :=
  s.PrimaryEngine.valid &&
  json.fitsInt s.TotalRangeKm

/-- Wire form of the `data` object of a status, with or without the
`climatisationStatus` member. -/
def StatusData.wire (climatisation : Bool) (s : StatusData) : JSON :=
  .object
    ([("batteryStatus", s.BatteryStatus.wire),
      ("chargingStatus", s.ChargingStatus.wire),
      ("chargingSettings", s.ChargingSettings.wire),
      ("plugStatus", s.PlugStatus.wire),
      ("rangeStatus", s.RangeStatus.wire),
      ("climatisationSettings", s.ClimatisationSettings.wire)]
     ++ if climatisation then [("climatisationStatus", s.ClimatisationStatus.wire)] else [])

/-- Every number of the status fits its Go type. -/
def StatusData.valid (s : StatusData) : Bool :=
  s.BatteryStatus.valid &&
  s.ChargingStatus.valid &&
  s.ChargingSettings.valid &&
  s.PlugStatus.valid &&
  s.RangeStatus.valid &&
  s.ClimatisationSettings.valid &&
  s.ClimatisationStatus.valid

/-- Wire form of a status response, with or without the
`climatisationStatus` member. -/
def Status.wire (climatisation : Bool) (s : Status) : JSON :=
  .object [("data", s.Data.wire climatisation)]

/-- Every number of the status fits its Go type. -/
def Status.valid (s : Status) : Bool :=
  s.Data.valid

/-- Wire form of a `/vehicles` record. -/
def Vehicle.wire (s : Vehicle) : JSON :=
  .object [("VIN", .string s.VIN), ("Nickname", .string s.Nickname)]

/-- Wire form of a `/vehicles` response. -/
def VehiclesResponse.wire (ds : List Vehicle) : JSON :=
  .object [("data", .array (ds.map Vehicle.wire))]

/-! ## Concrete scenes -/

/-- A world in which every identity holds the token `tok1` and a request is
built unless `url.refused` holds of its URL. -/
def demoWorld : World :=
  { identities := fun _ => ⟨"tok1"⟩
    newRequestError := fun _ uri =>
      if url.refused uri then some (.build "invalid URL escape") else none
    sprintfOther := fun format _ => format
    staleVehicle := fun _ _ => {} }

/-- A world in which no request can be built, the fixed `/vehicles` URL
included. -/
def brokenWorld : World :=
  { demoWorld with newRequestError := fun _ _ => some (.build "invalid URL") }

/-- A helper whose transport answers every request with the JSON document `j`. -/
def answering (j : JSON) : request.Helper :=
  { Do := fun _ => .body (.json j) }

/-- A helper whose transport fails on every request. -/
def unreachable : request.Helper :=
  { Do := fun _ => .failure (.transport "connection refused") }

/-- A helper whose transport answers every request with a body that is not JSON. -/
def garbled : request.Helper :=
  { Do := fun _ => .body .invalid }

/-- The `/vehicles` request of a client whose identity holds `tok1`. -/
def vehiclesRequest : Request :=
  { method := "GET"
    uri := "https://mobileapi.apps.emea.vwapps.io/vehicles"
    body := none
    header := [("Accept", "application/json"), ("Authorization", "Bearer tok1")] }

/-- The `/status` request for vehicle `V1` of a client whose identity holds `tok1`. -/
def statusRequest : Request :=
  { method := "GET"
    uri := "https://mobileapi.apps.emea.vwapps.io/vehicles/V1/status"
    body := none
    header := [("Accept", "application/json"), ("Authorization", "Bearer tok1")] }

/-- Two vehicles, as the decoder leaves them. -/
def twoVehicles : List Vehicle :=
  [{ VIN := "WVW1", Nickname := "one" }, { VIN := "WVW2", Nickname := "two" }]

/-- A `/vehicles` payload whose only record has a string VIN and a number
where the nickname string belongs: `{"data":[{"VIN":"WVW1","Nickname":7}]}`. -/
def mistypedVehicles : JSON :=
  .object [("data", .array [.object [("VIN", .string "WVW1"), ("Nickname", .number (.int 7))]])]

/-- A status payload with a battery record and a number where the plug
record belongs:
`{"data":{"batteryStatus":{"currentSOC_pct":57},"plugStatus":3}}`. -/
def mistypedStatus : JSON :=
  .object [("data", .object
    [("batteryStatus", .object [("currentSOC_pct", .number (.int 57))]),
     ("plugStatus", .number (.int 3))])]

/-- The JSON document `[1e999]`: an array holding a number beyond the range
of `float64`, whose largest value is below 1.8e308. -/
def hugeNumberArray : JSON :=
  .array [.number (.decimal 1 999)]

/-- A status with battery at 57 percent and primary engine at 99 percent. -/
def demoStatus : Status :=
  { Data :=
    { BatteryStatus := { CarCapturedTimestamp := "2021-01-10T12:00:00Z", CurrentSOCPercent := 57, CruisingRangeElectricKm := 210 }
      PlugStatus := { PlugConnectionState := "connected" }
      RangeStatus := { CarType := "electric", PrimaryEngine := { Type_ := "electric", CurrentSOCPercent := 99, RemainingRangeKm := 205 }, TotalRangeKm := 205 }
      ClimatisationSettings := { TargetTemperatureK := ⟨.decimal 2951 (-1)⟩, TargetTemperatureC := ⟨.int 22⟩ }
      ClimatisationStatus := { RemainingClimatisationTimeMin := 10, ClimatisationState := "heating" } } }

/-- A status payload with a battery record at 57 percent followed by a range
record whose primary engine is at 99 percent:
`{"data":{"batteryStatus":{"currentSOC_pct":57},"rangeStatus":{"primaryEngine":{"currentSOC_pct":99}}}}`. -/
def twoChargeLevels : JSON :=
  .object [("data", .object
    [("batteryStatus", .object [("currentSOC_pct", .number (.int 57))]),
     ("rangeStatus", .object [("primaryEngine", .object [("currentSOC_pct", .number (.int 99))])])])]

/-- The request of `Any("https://x/%s/y", "VIN1")` of a client whose identity
holds `tok1`. -/
def anyRequest : Request :=
  { method := "GET"
    uri := "https://x/VIN1/y"
    body := none
    header := [("Accept", "application/json"), ("Authorization", "Bearer tok1")] }

/-- A `/vehicles` payload with lower-case keys and a key the client does not
know: `{"data":[{"vin":"WVW1","nickname":"one","model":"ID.3"},{"vin":"WVW2","nickname":"two"}]}`. -/
def vehiclesLowerCase : JSON :=
  .object [("data", .array
    [.object [("vin", .string "WVW1"), ("nickname", .string "one"), ("model", .string "ID.3")],
     .object [("vin", .string "WVW2"), ("nickname", .string "two")]])]

/-! ## Evaluation of the range of `float64` -/

set_option exponentiation.threshold 2000

/-! ## Field lookup on the wire names -/

theorem BatteryStatus_fieldIndex_CarCapturedTimestamp :
    json.fieldIndex BatteryStatus.fields "carCapturedTimestamp" = some 0 := by
  decide

theorem BatteryStatus_fieldIndex_CurrentSOCPercent :
    json.fieldIndex BatteryStatus.fields "currentSOC_pct" = some 1 := by
  decide

theorem BatteryStatus_fieldIndex_CruisingRangeElectricKm :
    json.fieldIndex BatteryStatus.fields "cruisingRangeElectric_km" = some 2 := by
  decide

theorem ChargingStatus_fieldIndex_CarCapturedTimestamp :
    json.fieldIndex ChargingStatus.fields "carCapturedTimestamp" = some 0 := by
  decide

theorem ChargingStatus_fieldIndex_ChargingState :
    json.fieldIndex ChargingStatus.fields "chargingState" = some 1 := by
  decide

theorem ChargingStatus_fieldIndex_RemainingChargingTimeToCompleteMin :
    json.fieldIndex ChargingStatus.fields "remainingChargingTimeToComplete_min" = some 2 := by
  decide

theorem ChargingStatus_fieldIndex_ChargePowerKW :
    json.fieldIndex ChargingStatus.fields "chargePower_kW" = some 3 := by
  decide

theorem ChargingStatus_fieldIndex_ChargeRateKmph :
    json.fieldIndex ChargingStatus.fields "chargeRate_kmph" = some 4 := by
  decide

theorem ChargingSettings_fieldIndex_CarCapturedTimestamp :
    json.fieldIndex ChargingSettings.fields "carCapturedTimestamp" = some 0 := by
  decide

theorem ChargingSettings_fieldIndex_MaxChargeCurrentAC :
    json.fieldIndex ChargingSettings.fields "maxChargeCurrentAC" = some 1 := by
  decide

theorem ChargingSettings_fieldIndex_AutoUnlockPlugWhenCharged :
    json.fieldIndex ChargingSettings.fields "autoUnlockPlugWhenCharged" = some 2 := by
  decide

theorem ChargingSettings_fieldIndex_TargetSOCPercent :
    json.fieldIndex ChargingSettings.fields "targetSOC_pct" = some 3 := by
  decide

theorem PlugStatus_fieldIndex_CarCapturedTimestamp :
    json.fieldIndex PlugStatus.fields "carCapturedTimestamp" = some 0 := by
  decide

theorem PlugStatus_fieldIndex_PlugConnectionState :
    json.fieldIndex PlugStatus.fields "plugConnectionState" = some 1 := by
  decide

theorem PlugStatus_fieldIndex_PlugLockState :
    json.fieldIndex PlugStatus.fields "plugLockState" = some 2 := by
  decide

theorem ClimatisationStatus_fieldIndex_CarCapturedTimestamp :
    json.fieldIndex ClimatisationStatus.fields "carCapturedTimestamp" = some 0 := by
  decide

theorem ClimatisationStatus_fieldIndex_RemainingClimatisationTimeMin :
    json.fieldIndex ClimatisationStatus.fields "remainingClimatisationTime_min" = some 1 := by
  decide

theorem ClimatisationStatus_fieldIndex_ClimatisationState :
    json.fieldIndex ClimatisationStatus.fields "climatisationState" = some 2 := by
  decide

theorem ClimatisationSettings_fieldIndex_CarCapturedTimestamp :
    json.fieldIndex ClimatisationSettings.fields "carCapturedTimestamp" = some 0 := by
  decide

theorem ClimatisationSettings_fieldIndex_TargetTemperatureK :
    json.fieldIndex ClimatisationSettings.fields "targetTemperature_K" = some 1 := by
  decide

theorem ClimatisationSettings_fieldIndex_TargetTemperatureC :
    json.fieldIndex ClimatisationSettings.fields "targetTemperature_C" = some 2 := by
  decide

theorem ClimatisationSettings_fieldIndex_ClimatisationWithoutExternalPower :
    json.fieldIndex ClimatisationSettings.fields "climatisationWithoutExternalPower" = some 3 := by
  decide

theorem ClimatisationSettings_fieldIndex_ClimatisationAtUnlock :
    json.fieldIndex ClimatisationSettings.fields "climatisationAtUnlock" = some 4 := by
  decide

theorem ClimatisationSettings_fieldIndex_WindowHeatingEnabled :
    json.fieldIndex ClimatisationSettings.fields "windowHeatingEnabled" = some 5 := by
  decide

theorem ClimatisationSettings_fieldIndex_ZoneFrontLeftEnabled :
    json.fieldIndex ClimatisationSettings.fields "zoneFrontLeftEnabled" = some 6 := by
  decide

theorem ClimatisationSettings_fieldIndex_ZoneFrontRightEnabled :
    json.fieldIndex ClimatisationSettings.fields "zoneFrontRightEnabled" = some 7 := by
  decide

theorem ClimatisationSettings_fieldIndex_ZoneRearLeftEnabled :
    json.fieldIndex ClimatisationSettings.fields "zoneRearLeftEnabled" = some 8 := by
  decide

theorem ClimatisationSettings_fieldIndex_ZoneRearRightEnabled :
    json.fieldIndex ClimatisationSettings.fields "zoneRearRightEnabled" = some 9 := by
  decide

theorem PrimaryEngine_fieldIndex_Type_ :
    json.fieldIndex PrimaryEngine.fields "type" = some 0 := by
  decide

theorem PrimaryEngine_fieldIndex_CurrentSOCPercent :
    json.fieldIndex PrimaryEngine.fields "currentSOC_pct" = some 1 := by
  decide

theorem PrimaryEngine_fieldIndex_RemainingRangeKm :
    json.fieldIndex PrimaryEngine.fields "remainingRange_km" = some 2 := by
  decide

theorem RangeStatus_fieldIndex_CarCapturedTimestamp :
    json.fieldIndex RangeStatus.fields "carCapturedTimestamp" = some 0 := by
  decide

theorem RangeStatus_fieldIndex_CarType :
    json.fieldIndex RangeStatus.fields "carType" = some 1 := by
  decide

theorem RangeStatus_fieldIndex_PrimaryEngine :
    json.fieldIndex RangeStatus.fields "primaryEngine" = some 2 := by
  decide

theorem RangeStatus_fieldIndex_TotalRangeKm :
    json.fieldIndex RangeStatus.fields "totalRange_km" = some 3 := by
  decide

theorem StatusData_fieldIndex_BatteryStatus :
    json.fieldIndex StatusData.fields "batteryStatus" = some 0 := by
  decide

theorem StatusData_fieldIndex_ChargingStatus :
    json.fieldIndex StatusData.fields "chargingStatus" = some 1 := by
  decide

theorem StatusData_fieldIndex_ChargingSettings :
    json.fieldIndex StatusData.fields "chargingSettings" = some 2 := by
  decide

theorem StatusData_fieldIndex_PlugStatus :
    json.fieldIndex StatusData.fields "plugStatus" = some 3 := by
  decide

theorem StatusData_fieldIndex_RangeStatus :
    json.fieldIndex StatusData.fields "rangeStatus" = some 4 := by
  decide

theorem StatusData_fieldIndex_ClimatisationSettings :
    json.fieldIndex StatusData.fields "climatisationSettings" = some 5 := by
  decide

theorem StatusData_fieldIndex_ClimatisationStatus :
    json.fieldIndex StatusData.fields "climatisationStatus" = some 6 := by
  decide

theorem Status_fieldIndex_Data :
    json.fieldIndex Status.fields "data" = some 0 := by
  decide


/-! ## Decoding the wire form gives the status back -/

theorem BatteryStatus_unmarshal_wire (s t : BatteryStatus) (h : s.valid = true) :
    BatteryStatus.unmarshal s.wire t = (s, none) := by
  simp only [BatteryStatus.valid, Bool.and_eq_true] at h
  obtain ⟨h0, h1⟩ := h
  simp [BatteryStatus.unmarshal,
    BatteryStatus.wire,
    json.decodeStruct,
    json.decodeObject,
    BatteryStatus.setField,
    BatteryStatus_fieldIndex_CarCapturedTimestamp,
    BatteryStatus_fieldIndex_CurrentSOCPercent,
    BatteryStatus_fieldIndex_CruisingRangeElectricKm,
    json.decodeString,
    json.decodeInt,
    json.decodeBool,
    json.decodeFloat64,
    json.saveError,
    h0,
    h1]

theorem ChargingStatus_unmarshal_wire (s t : ChargingStatus) (h : s.valid = true) :
    ChargingStatus.unmarshal s.wire t = (s, none) := by
  simp only [ChargingStatus.valid, Bool.and_eq_true] at h
  obtain ⟨⟨h0, h1⟩, h2⟩ := h
  simp [ChargingStatus.unmarshal,
    ChargingStatus.wire,
    json.decodeStruct,
    json.decodeObject,
    ChargingStatus.setField,
    ChargingStatus_fieldIndex_CarCapturedTimestamp,
    ChargingStatus_fieldIndex_ChargingState,
    ChargingStatus_fieldIndex_RemainingChargingTimeToCompleteMin,
    ChargingStatus_fieldIndex_ChargePowerKW,
    ChargingStatus_fieldIndex_ChargeRateKmph,
    json.decodeString,
    json.decodeInt,
    json.decodeBool,
    json.decodeFloat64,
    json.saveError,
    h0,
    h1,
    h2]

theorem ChargingSettings_unmarshal_wire (s t : ChargingSettings) (h : s.valid = true) :
    ChargingSettings.unmarshal s.wire t = (s, none) := by
  simp only [ChargingSettings.valid, Bool.and_eq_true] at h
  simp [ChargingSettings.unmarshal,
    ChargingSettings.wire,
    json.decodeStruct,
    json.decodeObject,
    ChargingSettings.setField,
    ChargingSettings_fieldIndex_CarCapturedTimestamp,
    ChargingSettings_fieldIndex_MaxChargeCurrentAC,
    ChargingSettings_fieldIndex_AutoUnlockPlugWhenCharged,
    ChargingSettings_fieldIndex_TargetSOCPercent,
    json.decodeString,
    json.decodeInt,
    json.decodeBool,
    json.decodeFloat64,
    json.saveError,
    h]

theorem PlugStatus_unmarshal_wire (s t : PlugStatus) (_ : s.valid = true) :
    PlugStatus.unmarshal s.wire t = (s, none) := by
  simp [PlugStatus.unmarshal,
    PlugStatus.wire,
    json.decodeStruct,
    json.decodeObject,
    PlugStatus.setField,
    PlugStatus_fieldIndex_CarCapturedTimestamp,
    PlugStatus_fieldIndex_PlugConnectionState,
    PlugStatus_fieldIndex_PlugLockState,
    json.decodeString,
    json.decodeInt,
    json.decodeBool,
    json.decodeFloat64,
    json.saveError]

theorem ClimatisationStatus_unmarshal_wire (s t : ClimatisationStatus) (h : s.valid = true) :
    ClimatisationStatus.unmarshal s.wire t = (s, none) := by
  simp only [ClimatisationStatus.valid, Bool.and_eq_true] at h
  simp [ClimatisationStatus.unmarshal,
    ClimatisationStatus.wire,
    json.decodeStruct,
    json.decodeObject,
    ClimatisationStatus.setField,
    ClimatisationStatus_fieldIndex_CarCapturedTimestamp,
    ClimatisationStatus_fieldIndex_RemainingClimatisationTimeMin,
    ClimatisationStatus_fieldIndex_ClimatisationState,
    json.decodeString,
    json.decodeInt,
    json.decodeBool,
    json.decodeFloat64,
    json.saveError,
    h]

theorem ClimatisationSettings_unmarshal_wire (s t : ClimatisationSettings) (h : s.valid = true) :
    ClimatisationSettings.unmarshal s.wire t = (s, none) := by
  simp only [ClimatisationSettings.valid, Bool.and_eq_true] at h
  obtain ⟨h0, h1⟩ := h
  simp [ClimatisationSettings.unmarshal,
    ClimatisationSettings.wire,
    json.decodeStruct,
    json.decodeObject,
    ClimatisationSettings.setField,
    ClimatisationSettings_fieldIndex_CarCapturedTimestamp,
    ClimatisationSettings_fieldIndex_TargetTemperatureK,
    ClimatisationSettings_fieldIndex_TargetTemperatureC,
    ClimatisationSettings_fieldIndex_ClimatisationWithoutExternalPower,
    ClimatisationSettings_fieldIndex_ClimatisationAtUnlock,
    ClimatisationSettings_fieldIndex_WindowHeatingEnabled,
    ClimatisationSettings_fieldIndex_ZoneFrontLeftEnabled,
    ClimatisationSettings_fieldIndex_ZoneFrontRightEnabled,
    ClimatisationSettings_fieldIndex_ZoneRearLeftEnabled,
    ClimatisationSettings_fieldIndex_ZoneRearRightEnabled,
    json.decodeString,
    json.decodeInt,
    json.decodeBool,
    json.decodeFloat64,
    json.saveError,
    h0,
    h1]

theorem PrimaryEngine_unmarshal_wire (s t : PrimaryEngine) (h : s.valid = true) :
    PrimaryEngine.unmarshal s.wire t = (s, none) := by
  simp only [PrimaryEngine.valid, Bool.and_eq_true] at h
  obtain ⟨h0, h1⟩ := h
  simp [PrimaryEngine.unmarshal,
    PrimaryEngine.wire,
    json.decodeStruct,
    json.decodeObject,
    PrimaryEngine.setField,
    PrimaryEngine_fieldIndex_Type_,
    PrimaryEngine_fieldIndex_CurrentSOCPercent,
    PrimaryEngine_fieldIndex_RemainingRangeKm,
    json.decodeString,
    json.decodeInt,
    json.decodeBool,
    json.decodeFloat64,
    json.saveError,
    h0,
    h1]

theorem RangeStatus_unmarshal_wire (s t : RangeStatus) (h : s.valid = true) :
    RangeStatus.unmarshal s.wire t = (s, none) := by
  simp only [RangeStatus.valid, Bool.and_eq_true] at h
  obtain ⟨h0, h1⟩ := h
  simp [RangeStatus.unmarshal,
    RangeStatus.wire,
    json.decodeStruct,
    json.decodeObject,
    RangeStatus.setField,
    RangeStatus_fieldIndex_CarCapturedTimestamp,
    RangeStatus_fieldIndex_CarType,
    RangeStatus_fieldIndex_PrimaryEngine,
    RangeStatus_fieldIndex_TotalRangeKm,
    json.decodeString,
    json.decodeInt,
    json.decodeBool,
    json.decodeFloat64,
    json.saveError,
    PrimaryEngine_unmarshal_wire _ _ h0,
    h1]

theorem StatusData_unmarshal_wire (climatisation : Bool) (s t : StatusData)
    (h : s.valid = true) (ht : t.ClimatisationStatus = {}) :
    StatusData.unmarshal (s.wire climatisation) t
      = (if climatisation then s else { s with ClimatisationStatus := {} }, none) := by
  simp only [StatusData.valid, Bool.and_eq_true] at h
  obtain ⟨⟨⟨⟨⟨⟨h0, h1⟩, h2⟩, h3⟩, h4⟩, h5⟩, h6⟩ := h
  cases climatisation <;>
  simp [StatusData.unmarshal, StatusData.wire, json.decodeStruct, json.decodeObject,
    StatusData.setField, StatusData_fieldIndex_BatteryStatus, StatusData_fieldIndex_ChargingStatus,
    StatusData_fieldIndex_ChargingSettings, StatusData_fieldIndex_PlugStatus,
    StatusData_fieldIndex_RangeStatus, StatusData_fieldIndex_ClimatisationSettings,
    StatusData_fieldIndex_ClimatisationStatus, json.saveError,
    BatteryStatus_unmarshal_wire _ _ h0, ChargingStatus_unmarshal_wire _ _ h1,
    ChargingSettings_unmarshal_wire _ _ h2, PlugStatus_unmarshal_wire _ _ h3,
    RangeStatus_unmarshal_wire _ _ h4, ClimatisationSettings_unmarshal_wire _ _ h5,
    ClimatisationStatus_unmarshal_wire _ _ h6, ht]

theorem Status_unmarshal_wire (climatisation : Bool) (s : Status) (h : s.valid = true) :
    Status.unmarshal (s.wire climatisation) {}
      = (if climatisation then s
         else { Data := { s.Data with ClimatisationStatus := {} } }, none) := by
  have hd := StatusData_unmarshal_wire climatisation s.Data {} h rfl
  cases climatisation <;>
  simp_all [Status.unmarshal, Status.wire, json.decodeStruct, json.decodeObject,
    Status.setField, Status_fieldIndex_Data, json.saveError]

/-! ## Struct decoding, key by key -/

theorem json.decodeObject_append {σ : Type} (f : String → JSON → σ → σ × Option Error)
    (xs ys : List (String × JSON)) (s : σ) :
    (json.decodeObject f (xs ++ ys) s).1
      = (json.decodeObject f ys (json.decodeObject f xs s).1).1 := by
  induction xs generalizing s with
  | nil => simp [json.decodeObject]
  | cons kv xs ih =>
    obtain ⟨k, v⟩ := kv
    simp [json.decodeObject, ih]

theorem json.decodeObject_frame {σ β : Type} (f : String → JSON → σ → σ × Option Error)
    (proj : σ → β) (P : String → Prop)
    (hf : ∀ k v s, ¬ P k → proj (f k v s).1 = proj s)
    (ms : List (String × JSON)) (s : σ) (h : ∀ kv ∈ ms, ¬ P kv.1) :
    proj (json.decodeObject f ms s).1 = proj s := by
  induction ms generalizing s with
  | nil => simp [json.decodeObject]
  | cons kv ms ih =>
    obtain ⟨k, v⟩ := kv
    have hk : ¬ P k := h (k, v) (by simp)
    have hms : ∀ kv ∈ ms, ¬ P kv.1 := fun kv hkv => h kv (by simp [hkv])
    simp [json.decodeObject, ih _ hms, hf k v s hk]

theorem StatusData.setField_keeps_climatisation (k : String) (v : JSON) (s : StatusData)
    (hk : ¬ json.fieldIndex StatusData.fields k = some 6) :
    (StatusData.setField k v s).1.ClimatisationStatus = s.ClimatisationStatus := by
  unfold StatusData.setField
  split <;> first | rfl | (exfalso; apply hk; assumption)

theorem StatusData.setField_keeps_battery (k : String) (v : JSON) (s : StatusData)
    (hk : ¬ json.fieldIndex StatusData.fields k = some 0) :
    (StatusData.setField k v s).1.BatteryStatus = s.BatteryStatus := by
  unfold StatusData.setField
  split <;> first | rfl | (exfalso; apply hk; assumption)

theorem BatteryStatus.setField_keeps_soc (k : String) (v : JSON) (s : BatteryStatus)
    (hk : ¬ json.fieldIndex BatteryStatus.fields k = some 1) :
    (BatteryStatus.setField k v s).1.CurrentSOCPercent = s.CurrentSOCPercent := by
  unfold BatteryStatus.setField
  split <;> first | rfl | (exfalso; apply hk; assumption)

theorem BatteryStatus.decode_soc (n : Int) (hn : json.fitsInt n = true)
    (before after : List (String × JSON)) (t : BatteryStatus)
    (hafter : ∀ kv ∈ after, ¬ json.fieldIndex BatteryStatus.fields kv.1 = some 1) :
    (json.decodeObject BatteryStatus.setField
      (before ++ [("currentSOC_pct", .number (.int n))] ++ after) t).1.CurrentSOCPercent = n := by
  rw [json.decodeObject_append,
    json.decodeObject_frame BatteryStatus.setField (fun s => s.CurrentSOCPercent)
      (fun k => json.fieldIndex BatteryStatus.fields k = some 1)
      BatteryStatus.setField_keeps_soc after _ hafter,
    json.decodeObject_append]
  simp [json.decodeObject, BatteryStatus.setField, BatteryStatus_fieldIndex_CurrentSOCPercent,
    json.decodeInt, hn]

theorem StatusData.decode_battery_soc (n : Int) (hn : json.fitsInt n = true)
    (pre post before after : List (String × JSON)) (t : StatusData)
    (hpost : ∀ kv ∈ post, ¬ json.fieldIndex StatusData.fields kv.1 = some 0)
    (hafter : ∀ kv ∈ after, ¬ json.fieldIndex BatteryStatus.fields kv.1 = some 1) :
    (json.decodeObject StatusData.setField
      (pre ++ [("batteryStatus",
          .object (before ++ [("currentSOC_pct", .number (.int n))] ++ after))] ++ post)
      t).1.BatteryStatus.CurrentSOCPercent = n := by
  rw [json.decodeObject_append,
    json.decodeObject_frame StatusData.setField (fun s => s.BatteryStatus)
      (fun k => json.fieldIndex StatusData.fields k = some 0)
      StatusData.setField_keeps_battery post _ hpost,
    json.decodeObject_append]
  have hb := BatteryStatus.decode_soc n hn before after
    (json.decodeObject StatusData.setField pre t).1.BatteryStatus hafter
  simpa [json.decodeObject, StatusData.setField, StatusData_fieldIndex_BatteryStatus,
    BatteryStatus.unmarshal, json.decodeStruct] using hb

/-! ## Formatting with `%s` -/

theorem fmt.doPrintf_text_literal (lit rest : List Char) (a : List String) (h : '%' ∉ lit) :
    fmt.doPrintf .text (lit ++ rest) a
      = (fmt.doPrintf .text rest a).map (fun out => lit ++ out) := by
  induction lit with
  | nil => simp
  | cons c cs ih =>
    have hc : c ≠ '%' := fun e => h (by simp [e])
    have hcs : '%' ∉ cs := fun e => h (by simp [e])
    simp [fmt.doPrintf, hc, ih hcs, Option.map_map, Function.comp_def]

theorem fmt.doPrintf_verb_s (rest : List Char) (x : String) (a : List String) :
    fmt.doPrintf .text ('%' :: 's' :: rest) (x :: a)
      = (fmt.doPrintf .text rest a).map (fun out => x.data ++ out) := by
  simp [fmt.doPrintf, fmt.printArg, fmt.padString, fmt.unmodelled, Char.isDigit]

theorem fmt.doPrintf_text_end (lit : List Char) (h : '%' ∉ lit) :
    fmt.doPrintf .text lit [] = some lit := by
  have := fmt.doPrintf_text_literal lit [] [] h
  simpa [fmt.doPrintf, fmt.extraArgs] using this

theorem fmt.sprintf_one (other : String → List String → String) (pre post x : String)
    (hpre : '%' ∉ pre.data) (hpost : '%' ∉ post.data) :
    fmt.Sprintf other (pre ++ "%s" ++ post) [x] = pre ++ x ++ post := by
  have hd : (pre ++ "%s" ++ post).data = pre.data ++ ('%' :: 's' :: post.data) := by
    simp [String.data_append]
  unfold fmt.Sprintf
  rw [hd, fmt.doPrintf_text_literal _ _ _ hpre, fmt.doPrintf_verb_s,
    fmt.doPrintf_text_end _ hpost]
  apply String.ext
  simp [String.data_append]

theorem fmt.sprintf_three (other : String → List String → String) (p0 p1 p2 p3 x y z : String)
    (h0 : '%' ∉ p0.data) (h1 : '%' ∉ p1.data) (h2 : '%' ∉ p2.data) (h3 : '%' ∉ p3.data) :
    fmt.Sprintf other (p0 ++ "%s" ++ p1 ++ "%s" ++ p2 ++ "%s" ++ p3) [x, y, z]
      = p0 ++ x ++ p1 ++ y ++ p2 ++ z ++ p3 := by
  have hd : (p0 ++ "%s" ++ p1 ++ "%s" ++ p2 ++ "%s" ++ p3).data
      = p0.data ++ ('%' :: 's' :: (p1.data ++ ('%' :: 's' :: (p2.data ++ ('%' :: 's' :: p3.data))))) := by
    simp [String.data_append]
  unfold fmt.Sprintf
  rw [hd, fmt.doPrintf_text_literal _ _ _ h0, fmt.doPrintf_verb_s,
    fmt.doPrintf_text_literal _ _ _ h1, fmt.doPrintf_verb_s,
    fmt.doPrintf_text_literal _ _ _ h2, fmt.doPrintf_verb_s,
    fmt.doPrintf_text_end _ h3]
  apply String.ext
  simp [String.data_append]

theorem status_uri (other : String → List String → String) (vin : String) :
    fmt.Sprintf other "https://mobileapi.apps.emea.vwapps.io/vehicles/%s/status" [vin]
      = "https://mobileapi.apps.emea.vwapps.io/vehicles/" ++ vin ++ "/status" :=
  fmt.sprintf_one other "https://mobileapi.apps.emea.vwapps.io/vehicles/" "/status" vin
    (by decide) (by decide)

theorem action_uri (other : String → List String → String) (vin action value : String) :
    fmt.Sprintf other "https://mobileapi.apps.emea.vwapps.io/vehicles/%s/%s/%s"
        [vin, action, value]
      = "https://mobileapi.apps.emea.vwapps.io/vehicles/" ++ vin ++ "/" ++ action ++ "/" ++ value := by
  have h := fmt.sprintf_three other "https://mobileapi.apps.emea.vwapps.io/vehicles/" "/" "/" ""
    vin action value (by decide) (by decide) (by decide) (by decide)
  simpa using h

/-! ## Decoding the wire form of a vehicle list -/

theorem Vehicle_unmarshal_wire (s t : Vehicle) : Vehicle.unmarshal s.wire t = (s, none) := by
  have h0 : json.fieldIndex Vehicle.fields "VIN" = some 0 := by decide
  have h1 : json.fieldIndex Vehicle.fields "Nickname" = some 1 := by decide
  simp [Vehicle.unmarshal, Vehicle.wire, json.decodeStruct, json.decodeObject, Vehicle.setField,
    h0, h1, json.decodeString, json.saveError]

theorem decodeElems_wire (init : Nat → Vehicle) (i : Nat) (ds : List Vehicle) :
    json.decodeElems Vehicle.unmarshal init i (ds.map Vehicle.wire) = (ds, none) := by
  induction ds generalizing i with
  | nil => simp [json.decodeElems]
  | cons d ds ih => simp [json.decodeElems, Vehicle_unmarshal_wire, ih, json.saveError]

theorem VehiclesResponse_unmarshal_wire (stale : List Vehicle → Nat → Vehicle)
    (ds : List Vehicle) (t : VehiclesResponse) :
    VehiclesResponse.unmarshal stale (VehiclesResponse.wire ds) t = ({ Data := ds }, none) := by
  have h0 : json.fieldIndex VehiclesResponse.fields "data" = some 0 := by decide
  simp [VehiclesResponse.unmarshal, VehiclesResponse.wire, json.decodeStruct, json.decodeObject,
    VehiclesResponse.setField, h0, json.decodeSlice, decodeElems_wire, json.saveError]

/-! ## Vehicles -/

theorem vins_foldl (ds : List Vehicle) (acc : List String) :
    ds.foldl (fun res x => res ++ [x.VIN]) acc = acc ++ ds.map Vehicle.VIN := by
  induction ds generalizing acc with
  | nil => simp
  | cons d ds ih => simp [ih]

theorem vehicles_sent (w : World) (v : API) :
    (API.Vehicles w v).sent =
      match w.newRequestError http.MethodGet "https://mobileapi.apps.emea.vwapps.io/vehicles" with
      | some _ => []
      | none =>
        [{ method := http.MethodGet
           uri := "https://mobileapi.apps.emea.vwapps.io/vehicles"
           body := none
           header := [("Accept", "application/json"),
                      ("Authorization", "Bearer " ++ (w.identities v.identity).Token)] }] := by
  cases h : w.newRequestError http.MethodGet "https://mobileapi.apps.emea.vwapps.io/vehicles" <;>
    simp [API.Vehicles, request.New, h]

theorem vehicles_after_request (w : World) (v : API) (req : Request)
    (hsent : (API.Vehicles w v).sent = [req]) :
    (API.Vehicles w v).res
        = (v.Helper.DoJSON (VehiclesResponse.unmarshal w.staleVehicle) req {}).1.Data.map Vehicle.VIN ∧
    (API.Vehicles w v).err
        = (v.Helper.DoJSON (VehiclesResponse.unmarshal w.staleVehicle) req {}).2 := by
  cases h : w.newRequestError http.MethodGet "https://mobileapi.apps.emea.vwapps.io/vehicles" with
  | some e => simp [API.Vehicles, request.New, h] at hsent
  | none =>
    simp only [API.Vehicles, request.New, h, List.cons.injEq, and_true] at hsent
    subst hsent
    simp [API.Vehicles, request.New, h, vins_foldl]

/-- C1: whenever the response payload of Vehicles decodes without error into
a data array of records `ds`, the returned sequence is the VINs of `ds` in
order (same length, i-th element the VIN of the i-th record, nothing added,
dropped or moved) and the returned error is nil; and the payload
`{"data":[{"VIN":...,"Nickname":...}, ...]}` of any list of records is such a
payload. -/
theorem vehicles_returns_vins_in_order (w : World) (v : API) (req : Request)
    (hsent : (API.Vehicles w v).sent = [req]) :
    (∀ (j : JSON) (ds : List Vehicle),
      v.Helper.Do req = .body (.json j) →
      VehiclesResponse.unmarshal w.staleVehicle j {} = ({ Data := ds }, none) →
      (API.Vehicles w v).res = ds.map Vehicle.VIN ∧
      (API.Vehicles w v).res.length = ds.length ∧
      (∀ i (hi : i < ds.length), (API.Vehicles w v).res[i]? = some (ds.get ⟨i, hi⟩).VIN) ∧
      (API.Vehicles w v).err = none) ∧
    (∀ ds : List Vehicle,
      v.Helper.Do req = .body (.json (VehiclesResponse.wire ds)) →
      (API.Vehicles w v).res = ds.map Vehicle.VIN ∧ (API.Vehicles w v).err = none) := by
  obtain ⟨hres, herr⟩ := vehicles_after_request w v req hsent
  have key : ∀ (j : JSON) (ds : List Vehicle), v.Helper.Do req = .body (.json j) →
      VehiclesResponse.unmarshal w.staleVehicle j {} = ({ Data := ds }, none) →
      (API.Vehicles w v).res = ds.map Vehicle.VIN ∧ (API.Vehicles w v).err = none := by
    intro j ds hreply hdec
    have hdo : v.Helper.DoJSON (VehiclesResponse.unmarshal w.staleVehicle) req {}
        = ({ Data := ds }, none) := by
      simp [request.Helper.DoJSON, hreply, hdec]
    rw [hdo] at hres herr
    exact ⟨hres, herr⟩
  refine ⟨?_, ?_⟩
  · intro j ds hreply hdec
    obtain ⟨h1, h2⟩ := key j ds hreply hdec
    refine ⟨h1, by simp [h1], ?_, h2⟩
    intro i hi
    simp [h1, List.getElem?_eq_getElem, hi]
  · intro ds hreply
    exact key _ ds hreply (VehiclesResponse_unmarshal_wire _ ds {})

theorem vehicles_returns_vins_in_order_witness :
    ((API.Vehicles demoWorld (NewAPI (answering (VehiclesResponse.wire twoVehicles)) 0)).res
        = ["WVW1", "WVW2"] ∧
      (API.Vehicles demoWorld (NewAPI (answering (VehiclesResponse.wire twoVehicles)) 0)).err
        = none) ∧
    ((API.Vehicles demoWorld (NewAPI (answering vehiclesLowerCase) 0)).res = ["WVW1", "WVW2"] ∧
      (API.Vehicles demoWorld (NewAPI (answering vehiclesLowerCase) 0)).err = none) :=
  have h := (vehicles_returns_vins_in_order demoWorld
    (NewAPI (answering vehiclesLowerCase) 0) vehiclesRequest (by decide)).1
    vehiclesLowerCase twoVehicles (by rfl) (by decide)
  ⟨(vehicles_returns_vins_in_order demoWorld
      (NewAPI (answering (VehiclesResponse.wire twoVehicles)) 0) vehiclesRequest
      (by decide)).2 twoVehicles (by rfl),
   h.1, h.2.2.2⟩

/-- C2 (counterexample): the payload `{"data":[{"VIN":"WVW1","Nickname":7}]}`
makes the decoder report a type error after it has written the record, and
Vehicles returns the VIN of that record together with the error. -/
theorem vehicles_returns_vins_with_decode_error :
    (API.Vehicles demoWorld (NewAPI (answering mistypedVehicles) 0)).err
        = some (.unmarshalType "number" "string") ∧
    (API.Vehicles demoWorld (NewAPI (answering mistypedVehicles) 0)).res = ["WVW1"] := by
  decide

/-- C2 (amended): Vehicles returns a nil sequence and a non-nil error when
the request cannot be built, when the transport fails, and when the body is
not valid JSON. When the body is a JSON document, the returned sequence is
the VINs of the records the decoder left in the data array and the returned
error is the decoder's. -/
theorem vehicles_result_on_failure (w : World) (v : API) :
    (∀ e, w.newRequestError http.MethodGet "https://mobileapi.apps.emea.vwapps.io/vehicles"
        = some e →
      (API.Vehicles w v).res = [] ∧ (API.Vehicles w v).err = some e ∧
      (API.Vehicles w v).sent = []) ∧
    (∀ req e, (API.Vehicles w v).sent = [req] → v.Helper.Do req = .failure e →
      (API.Vehicles w v).res = [] ∧ (API.Vehicles w v).err = some e) ∧
    (∀ req, (API.Vehicles w v).sent = [req] → v.Helper.Do req = .body .invalid →
      (API.Vehicles w v).res = [] ∧ (API.Vehicles w v).err = some .invalidJSON) ∧
    (∀ req j, (API.Vehicles w v).sent = [req] → v.Helper.Do req = .body (.json j) →
      (API.Vehicles w v).res
        = (VehiclesResponse.unmarshal w.staleVehicle j {}).1.Data.map Vehicle.VIN ∧
      (API.Vehicles w v).err = (VehiclesResponse.unmarshal w.staleVehicle j {}).2) := by
  refine ⟨?_, ?_, ?_, ?_⟩
  · intro e h
    simp [API.Vehicles, request.New, h]
  · intro req e hsent hreply
    obtain ⟨hres, herr⟩ := vehicles_after_request w v req hsent
    simp [hres, herr, request.Helper.DoJSON, hreply]
  · intro req hsent hreply
    obtain ⟨hres, herr⟩ := vehicles_after_request w v req hsent
    simp [hres, herr, request.Helper.DoJSON, hreply]
  · intro req j hsent hreply
    obtain ⟨hres, herr⟩ := vehicles_after_request w v req hsent
    simp [hres, herr, request.Helper.DoJSON, hreply]

theorem vehicles_result_on_failure_witness :
    ((API.Vehicles brokenWorld (NewAPI unreachable 0)).res = [] ∧
      (API.Vehicles brokenWorld (NewAPI unreachable 0)).err = some (.build "invalid URL") ∧
      (API.Vehicles brokenWorld (NewAPI unreachable 0)).sent = []) ∧
    ((API.Vehicles demoWorld (NewAPI unreachable 0)).res = [] ∧
      (API.Vehicles demoWorld (NewAPI unreachable 0)).err
        = some (.transport "connection refused")) ∧
    ((API.Vehicles demoWorld (NewAPI garbled 0)).res = [] ∧
      (API.Vehicles demoWorld (NewAPI garbled 0)).err = some .invalidJSON) ∧
    ((API.Vehicles demoWorld (NewAPI (answering vehiclesLowerCase) 0)).res = ["WVW1", "WVW2"] ∧
      (API.Vehicles demoWorld (NewAPI (answering vehiclesLowerCase) 0)).err = none) :=
  ⟨(vehicles_result_on_failure brokenWorld (NewAPI unreachable 0)).1 _ (by rfl),
   (vehicles_result_on_failure demoWorld (NewAPI unreachable 0)).2.1 vehiclesRequest _
     (by decide) (by rfl),
   (vehicles_result_on_failure demoWorld (NewAPI garbled 0)).2.2.1 vehiclesRequest
     (by decide) (by rfl),
   (vehicles_result_on_failure demoWorld (NewAPI (answering vehiclesLowerCase) 0)).2.2.2
     vehiclesRequest vehiclesLowerCase (by decide) (by rfl)⟩

/-! ## Status -/

theorem status_sent (w : World) (v : API) (vin : String) :
    (API.Status w v vin).sent =
      match w.newRequestError http.MethodGet
          ("https://mobileapi.apps.emea.vwapps.io/vehicles/" ++ vin ++ "/status") with
      | some _ => []
      | none =>
        [{ method := http.MethodGet
           uri := "https://mobileapi.apps.emea.vwapps.io/vehicles/" ++ vin ++ "/status"
           body := none
           header := [("Accept", "application/json"),
                      ("Authorization", "Bearer " ++ (w.identities v.identity).Token)] }] := by
  cases h : w.newRequestError http.MethodGet
      ("https://mobileapi.apps.emea.vwapps.io/vehicles/" ++ vin ++ "/status") <;>
    simp [API.Status, request.New, status_uri, h]

theorem status_after_request (w : World) (v : API) (vin : String) (req : Request)
    (hsent : (API.Status w v vin).sent = [req]) :
    (API.Status w v vin).res = (v.Helper.DoJSON Status.unmarshal req {}).1 ∧
    (API.Status w v vin).err = (v.Helper.DoJSON Status.unmarshal req {}).2 := by
  cases h : w.newRequestError http.MethodGet
      ("https://mobileapi.apps.emea.vwapps.io/vehicles/" ++ vin ++ "/status") with
  | some e => simp [API.Status, request.New, status_uri, h] at hsent
  | none =>
    simp only [API.Status, request.New, status_uri, h, List.cons.injEq, and_true] at hsent
    subst hsent
    simp [API.Status, request.New, status_uri, h]

/-- C3 (counterexample): the payload
`{"data":{"batteryStatus":{"currentSOC_pct":57},"plugStatus":3}}` makes the
decoder report a type error, and Status returns the error together with a
Status that holds the decoded battery record, not the zero Status. -/
theorem status_returns_partial_status_with_decode_error :
    (API.Status demoWorld (NewAPI (answering mistypedStatus) 0) "V1").err
        = some (.unmarshalType "number" "id.PlugStatus") ∧
    (API.Status demoWorld (NewAPI (answering mistypedStatus) 0) "V1").res
        = { Data := { BatteryStatus := { CurrentSOCPercent := 57 } } } ∧
    (API.Status demoWorld (NewAPI (answering mistypedStatus) 0) "V1").res ≠ {} := by
  decide

/-- C3 (amended): Status returns the zero Status and a non-nil error when the
request cannot be built, when the transport fails, and when the body is not
valid JSON. When the body is a JSON document, the returned Status is what
the decoder made of the zero Status and the returned error is the decoder's. -/
theorem status_result_on_failure (w : World) (v : API) (vin : String) :
    (∀ e, w.newRequestError http.MethodGet
          ("https://mobileapi.apps.emea.vwapps.io/vehicles/" ++ vin ++ "/status") = some e →
      (API.Status w v vin).res = {} ∧ (API.Status w v vin).err = some e ∧
      (API.Status w v vin).sent = []) ∧
    (∀ req e, (API.Status w v vin).sent = [req] → v.Helper.Do req = .failure e →
      (API.Status w v vin).res = {} ∧ (API.Status w v vin).err = some e) ∧
    (∀ req, (API.Status w v vin).sent = [req] → v.Helper.Do req = .body .invalid →
      (API.Status w v vin).res = {} ∧ (API.Status w v vin).err = some .invalidJSON) ∧
    (∀ req j, (API.Status w v vin).sent = [req] → v.Helper.Do req = .body (.json j) →
      (API.Status w v vin).res = (Status.unmarshal j {}).1 ∧
      (API.Status w v vin).err = (Status.unmarshal j {}).2) := by
  refine ⟨?_, ?_, ?_, ?_⟩
  · intro e h
    simp [API.Status, request.New, status_uri, h]
  · intro req e hsent hreply
    obtain ⟨hres, herr⟩ := status_after_request w v vin req hsent
    simp [hres, herr, request.Helper.DoJSON, hreply]
  · intro req hsent hreply
    obtain ⟨hres, herr⟩ := status_after_request w v vin req hsent
    simp [hres, herr, request.Helper.DoJSON, hreply]
  · intro req j hsent hreply
    obtain ⟨hres, herr⟩ := status_after_request w v vin req hsent
    simp [hres, herr, request.Helper.DoJSON, hreply]

theorem status_result_on_failure_witness :
    ((API.Status demoWorld (NewAPI unreachable 0) "50%").res = {} ∧
      (API.Status demoWorld (NewAPI unreachable 0) "50%").err
        = some (.build "invalid URL escape") ∧
      (API.Status demoWorld (NewAPI unreachable 0) "50%").sent = []) ∧
    ((API.Status demoWorld (NewAPI unreachable 0) "V1").res = {} ∧
      (API.Status demoWorld (NewAPI unreachable 0) "V1").err
        = some (.transport "connection refused")) ∧
    ((API.Status demoWorld (NewAPI garbled 0) "V1").res = {} ∧
      (API.Status demoWorld (NewAPI garbled 0) "V1").err = some .invalidJSON) ∧
    ((API.Status demoWorld (NewAPI (answering twoChargeLevels) 0) "V1").res
        = { Data := { BatteryStatus := { CurrentSOCPercent := 57 }
                      RangeStatus := { PrimaryEngine := { CurrentSOCPercent := 99 } } } } ∧
      (API.Status demoWorld (NewAPI (answering twoChargeLevels) 0) "V1").err = none) :=
  ⟨(status_result_on_failure demoWorld (NewAPI unreachable 0) "50%").1 _ (by rfl),
   (status_result_on_failure demoWorld (NewAPI unreachable 0) "V1").2.1 statusRequest _
     (by decide) (by rfl),
   (status_result_on_failure demoWorld (NewAPI garbled 0) "V1").2.2.1 statusRequest
     (by decide) (by rfl),
   (status_result_on_failure demoWorld (NewAPI (answering twoChargeLevels) 0) "V1").2.2.2
     statusRequest twoChargeLevels (by decide) (by rfl)⟩

/-- C9: a status payload `{"data":{...}}` whose data object has no key naming
the ClimatisationStatus field decodes to a Status whose ClimatisationStatus
is the zero value, and the error returned is nil whenever the decoder reports
none; and the wire form of any valid status with the `climatisationStatus`
member left out decodes with nil error to that status with a zero
ClimatisationStatus, every other sub-record carrying the values of the
payload. -/
theorem status_without_climatisation_key (w : World) (v : API) (vin : String) (req : Request)
    (hsent : (API.Status w v vin).sent = [req]) :
    (∀ members : List (String × JSON),
      v.Helper.Do req = .body (.json (.object [("data", .object members)])) →
      (∀ kv ∈ members, ¬ json.fieldIndex StatusData.fields kv.1 = some 6) →
      (API.Status w v vin).res.Data.ClimatisationStatus = {} ∧
      ((Status.unmarshal (.object [("data", .object members)]) {}).2 = none →
        (API.Status w v vin).err = none)) ∧
    (∀ s : Status, s.valid = true →
      v.Helper.Do req = .body (.json (s.wire false)) →
      (API.Status w v vin).err = none ∧
      (API.Status w v vin).res = { Data := { s.Data with ClimatisationStatus := {} } } ∧
      (API.Status w v vin).res.Data.ClimatisationStatus
        = { CarCapturedTimestamp := "", RemainingClimatisationTimeMin := 0,
            ClimatisationState := "" }) := by
  obtain ⟨hres, herr⟩ := status_after_request w v vin req hsent
  refine ⟨?_, ?_⟩
  · intro members hreply hkeys
    have hdo : v.Helper.DoJSON Status.unmarshal req {}
        = Status.unmarshal (.object [("data", .object members)]) {} := by
      simp [request.Helper.DoJSON, hreply]
    rw [hdo] at hres herr
    refine ⟨?_, fun h => by rw [herr, h]⟩
    rw [hres]
    have hframe := json.decodeObject_frame StatusData.setField
      (fun s => s.ClimatisationStatus)
      (fun k => json.fieldIndex StatusData.fields k = some 6)
      StatusData.setField_keeps_climatisation members {} hkeys
    simpa [Status.unmarshal, json.decodeStruct, json.decodeObject, Status.setField,
      Status_fieldIndex_Data, StatusData.unmarshal] using hframe
  · intro s hs hreply
    have hdo : v.Helper.DoJSON Status.unmarshal req {} = Status.unmarshal (s.wire false) {} := by
      simp [request.Helper.DoJSON, hreply]
    rw [hdo, Status_unmarshal_wire false s hs] at hres herr
    simp [hres, herr]

theorem status_without_climatisation_key_witness :
    ((API.Status demoWorld (NewAPI (answering twoChargeLevels) 0)
        "V1").res.Data.ClimatisationStatus = {} ∧
      (API.Status demoWorld (NewAPI (answering twoChargeLevels) 0) "V1").err = none) ∧
    ((API.Status demoWorld (NewAPI (answering (demoStatus.wire false)) 0) "V1").err = none ∧
      (API.Status demoWorld (NewAPI (answering (demoStatus.wire false)) 0) "V1").res
        = { Data := { demoStatus.Data with ClimatisationStatus := {} } }) :=
  have h1 := (status_without_climatisation_key demoWorld
    (NewAPI (answering twoChargeLevels) 0) "V1" statusRequest (by decide)).1
    [("batteryStatus", .object [("currentSOC_pct", .number (.int 57))]),
     ("rangeStatus", .object [("primaryEngine",
        .object [("currentSOC_pct", .number (.int 99))])])]
    (by rfl) (by decide)
  have h2 := (status_without_climatisation_key demoWorld
    (NewAPI (answering (demoStatus.wire false)) 0) "V1" statusRequest (by decide)).2
    demoStatus (by decide) (by rfl)
  ⟨⟨h1.1, h1.2 (by decide)⟩, h2.1, h2.2.1⟩

/-- C10: for every integer `n` in the range of Go `int`, a status payload
whose batteryStatus record carries `currentSOC_pct = n` decodes to a Status
with BatteryStatus.CurrentSOCPercent = n, whatever the other members of the
payload hold (a rangeStatus record with its own primaryEngine.currentSOC_pct
included), as long as no later member sets the field again; and the wire form
of any valid status decodes with nil error to exactly that status, the
battery value and the primary engine value each from its own record. -/
theorem status_battery_soc_exact (w : World) (v : API) (vin : String) (req : Request)
    (hsent : (API.Status w v vin).sent = [req]) :
    (∀ (n : Int) (pre post before after : List (String × JSON)),
      json.fitsInt n = true →
      v.Helper.Do req = .body (.json (.object [("data", .object
        (pre ++ [("batteryStatus",
          .object (before ++ [("currentSOC_pct", .number (.int n))] ++ after))] ++ post))])) →
      (∀ kv ∈ post, ¬ json.fieldIndex StatusData.fields kv.1 = some 0) →
      (∀ kv ∈ after, ¬ json.fieldIndex BatteryStatus.fields kv.1 = some 1) →
      (API.Status w v vin).res.Data.BatteryStatus.CurrentSOCPercent = n) ∧
    (∀ s : Status, s.valid = true →
      v.Helper.Do req = .body (.json (s.wire true)) →
      (API.Status w v vin).err = none ∧
      (API.Status w v vin).res = s ∧
      (API.Status w v vin).res.Data.BatteryStatus.CurrentSOCPercent
        = s.Data.BatteryStatus.CurrentSOCPercent ∧
      (API.Status w v vin).res.Data.RangeStatus.PrimaryEngine.CurrentSOCPercent
        = s.Data.RangeStatus.PrimaryEngine.CurrentSOCPercent) := by
  obtain ⟨hres, herr⟩ := status_after_request w v vin req hsent
  refine ⟨?_, ?_⟩
  · intro n pre post before after hn hreply hpost hafter
    have hsoc := StatusData.decode_battery_soc n hn pre post before after {} hpost hafter
    rw [hres]
    simpa [request.Helper.DoJSON, hreply, Status.unmarshal, json.decodeStruct,
      json.decodeObject, Status.setField, Status_fieldIndex_Data, StatusData.unmarshal]
      using hsoc
  · intro s hs hreply
    have hdo : v.Helper.DoJSON Status.unmarshal req {} = Status.unmarshal (s.wire true) {} := by
      simp [request.Helper.DoJSON, hreply]
    rw [hdo, Status_unmarshal_wire true s hs] at hres herr
    simp [hres, herr]

theorem status_battery_soc_exact_witness :
    ((API.Status demoWorld (NewAPI (answering twoChargeLevels) 0)
      "V1").res.Data.BatteryStatus.CurrentSOCPercent = 57) ∧
    ((API.Status demoWorld (NewAPI (answering (demoStatus.wire true)) 0) "V1").err = none ∧
      (API.Status demoWorld (NewAPI (answering (demoStatus.wire true)) 0)
        "V1").res.Data.BatteryStatus.CurrentSOCPercent = 57 ∧
      (API.Status demoWorld (NewAPI (answering (demoStatus.wire true)) 0)
        "V1").res.Data.RangeStatus.PrimaryEngine.CurrentSOCPercent = 99) :=
  have h := (status_battery_soc_exact demoWorld
    (NewAPI (answering (demoStatus.wire true)) 0) "V1" statusRequest (by decide)).2
    demoStatus (by decide) (by rfl)
  ⟨(status_battery_soc_exact demoWorld (NewAPI (answering twoChargeLevels) 0) "V1"
      statusRequest (by decide)).1 57 []
      [("rangeStatus", .object [("primaryEngine",
        .object [("currentSOC_pct", .number (.int 99))])])]
      [] [] (by decide) (by rfl) (by decide) (by decide),
   h.1, h.2.2.1, h.2.2.2⟩

/-! ## Action -/

theorem action_sent (w : World) (v : API) (vin action value : String) :
    (API.Action w v vin action value).sent =
      match w.newRequestError http.MethodPost
          ("https://mobileapi.apps.emea.vwapps.io/vehicles/" ++ vin ++ "/" ++ action
            ++ "/" ++ value) with
      | some _ => []
      | none =>
        [{ method := http.MethodPost
           uri := "https://mobileapi.apps.emea.vwapps.io/vehicles/" ++ vin ++ "/" ++ action
            ++ "/" ++ value
           body := none
           header := [("Accept", "application/json"),
                      ("Authorization", "Bearer " ++ (w.identities v.identity).Token)] }] := by
  cases h : w.newRequestError http.MethodPost
      ("https://mobileapi.apps.emea.vwapps.io/vehicles/" ++ vin ++ "/" ++ action
        ++ "/" ++ value) <;>
    simp [API.Action, request.New, action_uri, h]

/-- C7: for every vehicle id, action kind and action value, every request
Action issues is a POST with no body whose target is the fixed prefix followed
by the three strings as given, separated by slashes; exactly that one request
is issued whenever the request can be built, and none otherwise. -/
theorem action_request_target (w : World) (v : API) (vin action value : String) :
    (∀ req ∈ (API.Action w v vin action value).sent,
      req.method = "POST" ∧ req.body = none ∧
      req.uri = "https://mobileapi.apps.emea.vwapps.io/vehicles/" ++ vin ++ "/" ++ action
        ++ "/" ++ value) ∧
    ((API.Action w v vin action value).sent.length = 1 ↔
      w.newRequestError "POST"
        ("https://mobileapi.apps.emea.vwapps.io/vehicles/" ++ vin ++ "/" ++ action
          ++ "/" ++ value) = none) ∧
    ((API.Action w v vin action value).sent = [] ↔
      ∃ e, w.newRequestError "POST"
        ("https://mobileapi.apps.emea.vwapps.io/vehicles/" ++ vin ++ "/" ++ action
          ++ "/" ++ value) = some e) := by
  rw [action_sent]
  cases h : w.newRequestError http.MethodPost
      ("https://mobileapi.apps.emea.vwapps.io/vehicles/" ++ vin ++ "/" ++ action
        ++ "/" ++ value) <;>
    simp_all [http.MethodPost]

theorem action_request_target_witness :
    (API.Action demoWorld (NewAPI unreachable 0) "WVW1234" ActionCharge ActionChargeStart).sent
      = [{ method := "POST"
           uri := "https://mobileapi.apps.emea.vwapps.io/vehicles/WVW1234/charging/start"
           body := none
           header := [("Accept", "application/json"), ("Authorization", "Bearer tok1")] }] ∧
    ("POST" = "POST" ∧ (none : Option String) = none ∧
      "https://mobileapi.apps.emea.vwapps.io/vehicles/WVW1234/charging/start"
        = "https://mobileapi.apps.emea.vwapps.io/vehicles/" ++ "WVW1234" ++ "/" ++ ActionCharge
          ++ "/" ++ ActionChargeStart) :=
  ⟨by decide,
   (action_request_target demoWorld (NewAPI unreachable 0) "WVW1234" ActionCharge
      ActionChargeStart).1
      { method := "POST"
        uri := "https://mobileapi.apps.emea.vwapps.io/vehicles/WVW1234/charging/start"
        body := none
        header := [("Accept", "application/json"), ("Authorization", "Bearer tok1")] }
      (by decide)⟩

/-! ## Any -/

theorem strings.containsChars_infix (a sub b : List Char) :
    strings.containsChars (a ++ sub ++ b) sub = true := by
  induction a with
  | nil =>
    cases sub with
    | nil => cases b <;> simp [strings.containsChars]
    | cons c cs =>
      have hp : (c :: cs).isPrefixOf (c :: (cs ++ b)) = true := by
        rw [List.isPrefixOf_iff_prefix]
        exact ⟨b, by simp⟩
      show strings.containsChars (c :: (cs ++ b)) (c :: cs) = true
      unfold strings.containsChars
      rw [hp]
      rfl
  | cons x xs ih =>
    simp only [List.cons_append, strings.containsChars]
    simp only [List.append_assoc] at ih
    simp [ih]

theorem strings.infix_of_containsChars (s sub : List Char)
    (h : strings.containsChars s sub = true) : ∃ a b, s = a ++ sub ++ b := by
  induction s with
  | nil =>
    simp only [strings.containsChars, List.isEmpty_iff] at h
    exact ⟨[], [], by simp [h]⟩
  | cons c cs ih =>
    simp only [strings.containsChars, Bool.or_eq_true] at h
    rcases h with h | h
    · rw [List.isPrefixOf_iff_prefix] at h
      obtain ⟨b, hb⟩ := h
      exact ⟨[], b, by simp [hb]⟩
    · obtain ⟨a, b, hab⟩ := ih h
      exact ⟨c :: a, b, by simp [hab]⟩

theorem strings.contains_placeholder (pre post : String) :
    strings.Contains (pre ++ "%s" ++ post) "%s" = true := by
  have h := strings.containsChars_infix pre.data "%s".data post.data
  simpa [strings.Contains, String.data_append] using h

theorem strings.not_contains_placeholder (uri : String)
    (h : ¬ ∃ pre post : String, uri = pre ++ "%s" ++ post) :
    strings.Contains uri "%s" = false := by
  cases hc : strings.Contains uri "%s" with
  | false => rfl
  | true =>
    exfalso
    apply h
    obtain ⟨a, b, hab⟩ := strings.infix_of_containsChars uri.data "%s".data hc
    refine ⟨String.mk a, String.mk b, ?_⟩
    apply String.ext
    simp [String.data_append, hab]

theorem any_sent (w : World) (v : API) (uri vin : String) :
    (API.Any w v uri vin).sent =
      match w.newRequestError http.MethodGet
          (if strings.Contains uri "%s" then fmt.Sprintf w.sprintfOther uri [vin] else uri) with
      | some _ => []
      | none =>
        [{ method := http.MethodGet
           uri := if strings.Contains uri "%s" then fmt.Sprintf w.sprintfOther uri [vin] else uri
           body := none
           header := [("Accept", "application/json"),
                      ("Authorization", "Bearer " ++ (w.identities v.identity).Token)] }] := by
  cases h : w.newRequestError http.MethodGet
      (if strings.Contains uri "%s" then fmt.Sprintf w.sprintfOther uri [vin] else uri) <;>
    simp [API.Any, request.New, h]

theorem any_after_request (w : World) (v : API) (uri vin : String) (req : Request)
    (hsent : (API.Any w v uri vin).sent = [req]) :
    (API.Any w v uri vin).res = (v.Helper.DoJSON json.decodeInterface req .nil).1 ∧
    (API.Any w v uri vin).err = (v.Helper.DoJSON json.decodeInterface req .nil).2 := by
  cases h : w.newRequestError http.MethodGet
      (if strings.Contains uri "%s" then fmt.Sprintf w.sprintfOther uri [vin] else uri) with
  | some e => simp [API.Any, request.New, h] at hsent
  | none =>
    simp only [API.Any, request.New, h, List.cons.injEq, and_true] at hsent
    subst hsent
    simp [API.Any, request.New, h]

/-! ## The decoder reports an error exactly for a number out of range -/

theorem saveError_eq_none (a b : Option Error) :
    json.saveError a b = none ↔ a = none ∧ b = none := by
  cases a <;> simp [json.saveError]

mutual

theorem valueInterface_err (j : JSON) :
    (json.valueInterface j).2 = none ↔ json.allNumbersFit j = true := by
  cases j with
  | null => simp [json.valueInterface, json.allNumbersFit]
  | bool b => simp [json.valueInterface, json.allNumbersFit]
  | number n =>
    by_cases hn : json.fitsFloat64 n = true <;>
      simp [json.valueInterface, json.allNumbersFit, hn]
  | string s => simp [json.valueInterface, json.allNumbersFit]
  | array xs =>
    simpa [json.valueInterface, json.allNumbersFit] using arrayInterface_err xs
  | object ms =>
    simpa [json.valueInterface, json.allNumbersFit] using objectInterface_err ms []

theorem arrayInterface_err (xs : List JSON) :
    (json.valueInterface.arrayInterface xs).2 = none
      ↔ json.allNumbersFit.elementsFit xs = true := by
  cases xs with
  | nil => simp [json.valueInterface.arrayInterface, json.allNumbersFit.elementsFit]
  | cons x xs =>
    simp [json.valueInterface.arrayInterface, json.allNumbersFit.elementsFit,
      saveError_eq_none, valueInterface_err x, arrayInterface_err xs]

theorem objectInterface_err (ms : List (String × JSON)) (m : List (String × json.Value)) :
    (json.valueInterface.objectInterface ms m).2 = none
      ↔ json.allNumbersFit.membersFit ms = true := by
  cases ms with
  | nil => simp [json.valueInterface.objectInterface, json.allNumbersFit.membersFit]
  | cons kv ms =>
    obtain ⟨k, x⟩ := kv
    simp [json.valueInterface.objectInterface, json.allNumbersFit.membersFit,
      saveError_eq_none, valueInterface_err x, objectInterface_err ms]

end

/-- C4 (counterexample): the body `[1e999]` is valid JSON, the decoder reports
the number as out of range and still builds the array, and Any returns that
non-nil value together with the non-nil error. -/
theorem any_returns_value_with_decode_error :
    (API.Any demoWorld (NewAPI (answering hugeNumberArray) 0) "https://x/y" "VIN1").res
        = .slice [.nil] ∧
    (API.Any demoWorld (NewAPI (answering hugeNumberArray) 0) "https://x/y" "VIN1").err
        = some (.unmarshalType "number" "float64") ∧
    (API.Any demoWorld (NewAPI (answering hugeNumberArray) 0) "https://x/y" "VIN1").sent
        = [{ method := "GET", uri := "https://x/y", body := none,
             header := [("Accept", "application/json"), ("Authorization", "Bearer tok1")] }] :=
  ⟨rfl, rfl, by decide⟩

/-- C4 (amended): Any returns a nil value and a non-nil error when the
request cannot be built, when the transport fails, and when the body is not
valid JSON. For a body that is valid JSON the returned error is non-nil
exactly when the body holds a number out of the range of float64, and the
returned value is non-nil only when the returned error is nil, except for an
array or object body holding such a number: there, and only there, a non-nil
value is returned together with the non-nil error. -/
theorem any_result_on_failure (w : World) (v : API) (uri vin : String) :
    (∀ e, w.newRequestError http.MethodGet
          (if strings.Contains uri "%s" then fmt.Sprintf w.sprintfOther uri [vin] else uri)
          = some e →
      (API.Any w v uri vin).res = .nil ∧ (API.Any w v uri vin).err = some e ∧
      (API.Any w v uri vin).sent = []) ∧
    (∀ req e, (API.Any w v uri vin).sent = [req] → v.Helper.Do req = .failure e →
      (API.Any w v uri vin).res = .nil ∧ (API.Any w v uri vin).err = some e) ∧
    (∀ req, (API.Any w v uri vin).sent = [req] → v.Helper.Do req = .body .invalid →
      (API.Any w v uri vin).res = .nil ∧ (API.Any w v uri vin).err = some .invalidJSON) ∧
    (∀ req j, (API.Any w v uri vin).sent = [req] → v.Helper.Do req = .body (.json j) →
      ((API.Any w v uri vin).err = none ↔ json.allNumbersFit j = true) ∧
      (((API.Any w v uri vin).res ≠ .nil ∧ (API.Any w v uri vin).err ≠ none) ↔
        (json.isComposite j = true ∧ json.allNumbersFit j = false))) := by
  refine ⟨?_, ?_, ?_, ?_⟩
  · intro e h
    simp [API.Any, request.New, h]
  · intro req e hsent hreply
    obtain ⟨hres, herr⟩ := any_after_request w v uri vin req hsent
    simp [hres, herr, request.Helper.DoJSON, hreply]
  · intro req hsent hreply
    obtain ⟨hres, herr⟩ := any_after_request w v uri vin req hsent
    simp [hres, herr, request.Helper.DoJSON, hreply]
  · intro req j hsent hreply
    obtain ⟨hres, herr⟩ := any_after_request w v uri vin req hsent
    have hdo : v.Helper.DoJSON json.decodeInterface req .nil = json.decodeInterface j .nil := by
      simp [request.Helper.DoJSON, hreply]
    rw [hdo] at hres herr
    rw [hres, herr]
    cases j with
    | null => simp [json.decodeInterface, json.allNumbersFit, json.isComposite]
    | bool b =>
      simp [json.decodeInterface, json.valueInterface, json.allNumbersFit, json.isComposite]
    | number n =>
      by_cases hn : json.fitsFloat64 n = true <;>
        simp [json.decodeInterface, json.allNumbersFit, json.isComposite, hn]
    | string s =>
      simp [json.decodeInterface, json.valueInterface, json.allNumbersFit, json.isComposite]
    | array xs =>
      have h := valueInterface_err (.array xs)
      simp only [json.decodeInterface]
      refine ⟨h, ?_⟩
      cases hfit : json.allNumbersFit (.array xs) with
      | true =>
        have he := h.2 hfit
        simp [he]
      | false =>
        have he : ¬ (json.valueInterface (.array xs)).2 = none := fun hn => by
          have := h.1 hn
          simp [hfit] at this
        simp only [json.valueInterface] at he
        simp [json.isComposite, he, json.valueInterface]
    | object ms =>
      have h := valueInterface_err (.object ms)
      simp only [json.decodeInterface]
      refine ⟨h, ?_⟩
      cases hfit : json.allNumbersFit (.object ms) with
      | true =>
        have he := h.2 hfit
        simp [he]
      | false =>
        have he : ¬ (json.valueInterface (.object ms)).2 = none := fun hn => by
          have := h.1 hn
          simp [hfit] at this
        simp only [json.valueInterface] at he
        simp [json.isComposite, he, json.valueInterface]

theorem any_result_on_failure_witness :
    ((API.Any demoWorld (NewAPI unreachable 0) "https://x/%zz" "VIN1").res = .nil ∧
      (API.Any demoWorld (NewAPI unreachable 0) "https://x/%zz" "VIN1").err
        = some (.build "invalid URL escape") ∧
      (API.Any demoWorld (NewAPI unreachable 0) "https://x/%zz" "VIN1").sent = []) ∧
    ((API.Any demoWorld (NewAPI unreachable 0) "https://x/%s/y" "VIN1").res = .nil ∧
      (API.Any demoWorld (NewAPI unreachable 0) "https://x/%s/y" "VIN1").err
        = some (.transport "connection refused")) ∧
    ((API.Any demoWorld (NewAPI garbled 0) "https://x/%s/y" "VIN1").res = .nil ∧
      (API.Any demoWorld (NewAPI garbled 0) "https://x/%s/y" "VIN1").err
        = some .invalidJSON) ∧
    ((API.Any demoWorld (NewAPI (answering hugeNumberArray) 0) "https://x/%s/y" "VIN1").res
        ≠ .nil ∧
      (API.Any demoWorld (NewAPI (answering hugeNumberArray) 0) "https://x/%s/y" "VIN1").err
        ≠ none) ∧
    (API.Any demoWorld (NewAPI (answering vehiclesLowerCase) 0) "https://x/%s/y" "VIN1").err
        = none ∧
    ¬ ((API.Any demoWorld (NewAPI (answering (.number (.decimal 1 999))) 0)
          "https://x/%s/y" "VIN1").res ≠ .nil ∧
       (API.Any demoWorld (NewAPI (answering (.number (.decimal 1 999))) 0)
          "https://x/%s/y" "VIN1").err ≠ none) :=
  ⟨(any_result_on_failure demoWorld (NewAPI unreachable 0) "https://x/%zz" "VIN1").1 _
     (by rfl),
   (any_result_on_failure demoWorld (NewAPI unreachable 0) "https://x/%s/y" "VIN1").2.1
     anyRequest _ (by decide) (by rfl),
   (any_result_on_failure demoWorld (NewAPI garbled 0) "https://x/%s/y" "VIN1").2.2.1
     anyRequest (by decide) (by rfl),
   ((any_result_on_failure demoWorld (NewAPI (answering hugeNumberArray) 0)
      "https://x/%s/y" "VIN1").2.2.2 anyRequest hugeNumberArray (by decide) (by rfl)).2.2
     ⟨by rfl, by rfl⟩,
   ((any_result_on_failure demoWorld (NewAPI (answering vehiclesLowerCase) 0)
      "https://x/%s/y" "VIN1").2.2.2 anyRequest vehiclesLowerCase (by decide) (by rfl)).1.2
     (by rfl),
   fun h => absurd
     (((any_result_on_failure demoWorld (NewAPI (answering (.number (.decimal 1 999))) 0)
        "https://x/%s/y" "VIN1").2.2.2 anyRequest (.number (.decimal 1 999)) (by decide)
        (by rfl)).2.1 h).1
     (by decide)⟩

/-- C5 (counterexample): the template `https://x/y?p=%2F%s` holds the
placeholder once, after a percent-encoded slash in the query. `fmt.Sprintf`
reads `%2F` as a directive of width 2 with the unknown verb `F`, spends the
vehicle id on it, and finds no operand left for `%s`. The request is built
(the query of a URL is not unescaped) and sent with a target that is not
`https://x/y?p=%2FVIN1`. -/
theorem any_mangles_percent_encoded_template :
    (API.Any demoWorld (NewAPI (answering .null) 0) ("https://x/y?p=%2F" ++ "%s" ++ "")
        "VIN1").sent
      = [{ method := "GET"
           uri := "https://x/y?p=%!F(string=VIN1)%!s(MISSING)"
           body := none
           header := [("Accept", "application/json"), ("Authorization", "Bearer tok1")] }] ∧
    ¬ (∀ req ∈ (API.Any demoWorld (NewAPI (answering .null) 0)
          ("https://x/y?p=%2F" ++ "%s" ++ "") "VIN1").sent,
        req.uri = "https://x/y?p=%2F" ++ "VIN1" ++ "") := by
  decide

/-- C5 (amended): for every template `pre ++ "%s" ++ post` in which neither
`pre` nor `post` holds a percent sign, and every vehicle id, every request Any
issues is a GET whose target is `pre ++ vin ++ post`; exactly that one request
is issued whenever the request can be built. -/
theorem any_resolves_placeholder (w : World) (v : API) (pre post vin : String)
    (hpre : '%' ∉ pre.data) (hpost : '%' ∉ post.data) :
    (∀ req ∈ (API.Any w v (pre ++ "%s" ++ post) vin).sent,
      req.method = "GET" ∧ req.uri = pre ++ vin ++ post) ∧
    ((API.Any w v (pre ++ "%s" ++ post) vin).sent.length = 1 ↔
      w.newRequestError "GET" (pre ++ vin ++ post) = none) := by
  rw [any_sent, strings.contains_placeholder, if_pos rfl, fmt.sprintf_one _ _ _ _ hpre hpost]
  cases h : w.newRequestError http.MethodGet (pre ++ vin ++ post) <;>
    simp_all [http.MethodGet]

theorem any_resolves_placeholder_witness :
    (API.Any demoWorld (NewAPI unreachable 0) ("https://x/" ++ "%s" ++ "/y") "VIN1").sent
        = [anyRequest] ∧
    (anyRequest.method = "GET" ∧ anyRequest.uri = "https://x/" ++ "VIN1" ++ "/y") :=
  ⟨by decide,
   (any_resolves_placeholder demoWorld (NewAPI unreachable 0) "https://x/" "/y" "VIN1"
      (by decide) (by decide)).1 anyRequest (by decide)⟩

/-- C6: for every endpoint that does not hold the substring `%s` and every
vehicle id, every request Any issues has the endpoint as its target,
unchanged; exactly that one request is issued whenever the request can be
built; and the whole outcome is the same for any two vehicle ids. -/
theorem any_verbatim_without_placeholder (w : World) (v : API) (uri vin vin' : String)
    (h : ¬ ∃ pre post : String, uri = pre ++ "%s" ++ post) :
    (∀ req ∈ (API.Any w v uri vin).sent, req.method = "GET" ∧ req.uri = uri) ∧
    ((API.Any w v uri vin).sent.length = 1 ↔ w.newRequestError "GET" uri = none) ∧
    API.Any w v uri vin = API.Any w v uri vin' := by
  have hc := strings.not_contains_placeholder uri h
  refine ⟨?_, ?_, ?_⟩
  · rw [any_sent, hc]
    cases h : w.newRequestError http.MethodGet uri <;> simp_all [http.MethodGet]
  · rw [any_sent, hc]
    cases h : w.newRequestError http.MethodGet uri <;> simp_all [http.MethodGet]
  · simp [API.Any, hc]

theorem any_verbatim_without_placeholder_witness :
    (API.Any demoWorld (NewAPI unreachable 0) "https://x/a%20b/y?f=%d" "VIN1").sent
        = [{ anyRequest with uri := "https://x/a%20b/y?f=%d" }] ∧
    ("GET" = "GET" ∧ "https://x/a%20b/y?f=%d" = "https://x/a%20b/y?f=%d") ∧
    API.Any demoWorld (NewAPI unreachable 0) "https://x/a%20b/y?f=%d" "VIN1"
      = API.Any demoWorld (NewAPI unreachable 0) "https://x/a%20b/y?f=%d" "VIN2" :=
  have h := any_verbatim_without_placeholder demoWorld (NewAPI unreachable 0)
    "https://x/a%20b/y?f=%d" "VIN1" "VIN2"
    (fun ⟨pre, post, hp⟩ =>
      absurd (hp ▸ strings.contains_placeholder pre post) (by decide))
  ⟨by decide,
   h.1 { anyRequest with uri := "https://x/a%20b/y?f=%d" } (by decide),
   h.2.2⟩

/-! ## Headers -/

theorem requests_of_calls (w : World) (v : API) (vin action value uri : String) :
    (API.Vehicles w v).sent
      = (if w.newRequestError "GET" "https://mobileapi.apps.emea.vwapps.io/vehicles" = none
         then [{ method := "GET"
                 uri := "https://mobileapi.apps.emea.vwapps.io/vehicles"
                 body := none
                 header := [("Accept", "application/json"),
                   ("Authorization", "Bearer " ++ (w.identities v.identity).Token)] }]
         else []) ∧
    (API.Status w v vin).sent
      = (if w.newRequestError "GET"
            ("https://mobileapi.apps.emea.vwapps.io/vehicles/" ++ vin ++ "/status") = none
         then [{ method := "GET"
                 uri := "https://mobileapi.apps.emea.vwapps.io/vehicles/" ++ vin ++ "/status"
                 body := none
                 header := [("Accept", "application/json"),
                   ("Authorization", "Bearer " ++ (w.identities v.identity).Token)] }]
         else []) ∧
    (API.Action w v vin action value).sent
      = (if w.newRequestError "POST"
            ("https://mobileapi.apps.emea.vwapps.io/vehicles/" ++ vin ++ "/" ++ action
              ++ "/" ++ value) = none
         then [{ method := "POST"
                 uri := "https://mobileapi.apps.emea.vwapps.io/vehicles/" ++ vin ++ "/"
                   ++ action ++ "/" ++ value
                 body := none
                 header := [("Accept", "application/json"),
                   ("Authorization", "Bearer " ++ (w.identities v.identity).Token)] }]
         else []) ∧
    (API.Any w v uri vin).sent
      = (if w.newRequestError "GET"
            (if strings.Contains uri "%s" then fmt.Sprintf w.sprintfOther uri [vin] else uri)
              = none
         then [{ method := "GET"
                 uri := if strings.Contains uri "%s" then fmt.Sprintf w.sprintfOther uri [vin]
                   else uri
                 body := none
                 header := [("Accept", "application/json"),
                   ("Authorization", "Bearer " ++ (w.identities v.identity).Token)] }]
         else []) := by
  refine ⟨?_, ?_, ?_, ?_⟩
  · rw [vehicles_sent]
    cases h : w.newRequestError http.MethodGet "https://mobileapi.apps.emea.vwapps.io/vehicles" <;>
      simp_all [http.MethodGet]
  · rw [status_sent]
    cases h : w.newRequestError http.MethodGet
        ("https://mobileapi.apps.emea.vwapps.io/vehicles/" ++ vin ++ "/status") <;>
      simp_all [http.MethodGet]
  · rw [action_sent]
    cases h : w.newRequestError http.MethodPost
        ("https://mobileapi.apps.emea.vwapps.io/vehicles/" ++ vin ++ "/" ++ action
          ++ "/" ++ value) <;>
      simp_all [http.MethodPost]
  · rw [any_sent]
    cases h : w.newRequestError http.MethodGet
        (if strings.Contains uri "%s" then fmt.Sprintf w.sprintfOther uri [vin] else uri) <;>
      simp_all [http.MethodGet]

/-- C8: each of the four operations issues exactly one request when its
request can be built and none otherwise, and that request carries exactly the
headers `Accept: application/json` and `Authorization: Bearer t`, where `t`
is what the identity's Token() returns when the operation is called. So the
calls of a client made after the identity's token became `t1` send
`Bearer t1`, and the calls of the same client made after the token changed to
`t2` send `Bearer t2`. -/
theorem authorization_from_current_token (w : World) (v : API)
    (vin action value uri : String) :
    (((API.Vehicles w v).sent.map Request.header
      = if w.newRequestError "GET"
          "https://mobileapi.apps.emea.vwapps.io/vehicles" = none
        then [[("Accept", "application/json"), ("Authorization", "Bearer " ++ (w.identities v.identity).Token)]]
        else []) ∧
    ((API.Status w v vin).sent.map Request.header
      = if w.newRequestError "GET"
          ("https://mobileapi.apps.emea.vwapps.io/vehicles/" ++ vin ++ "/status") = none
        then [[("Accept", "application/json"), ("Authorization", "Bearer " ++ (w.identities v.identity).Token)]]
        else []) ∧
    ((API.Action w v vin action value).sent.map Request.header
      = if w.newRequestError "POST"
          ("https://mobileapi.apps.emea.vwapps.io/vehicles/" ++ vin ++ "/" ++ action
            ++ "/" ++ value) = none
        then [[("Accept", "application/json"), ("Authorization", "Bearer " ++ (w.identities v.identity).Token)]]
        else []) ∧
    ((API.Any w v uri vin).sent.map Request.header
      = if w.newRequestError "GET"
          (if strings.Contains uri "%s" then fmt.Sprintf w.sprintfOther uri [vin]
            else uri) = none
        then [[("Accept", "application/json"), ("Authorization", "Bearer " ++ (w.identities v.identity).Token)]]
        else [])) ∧
    (∀ t1 t2 : String,
      (((API.Vehicles (w.refresh v.identity t1) v).sent.map Request.header
        = if w.newRequestError "GET"
            "https://mobileapi.apps.emea.vwapps.io/vehicles" = none
          then [[("Accept", "application/json"), ("Authorization", "Bearer " ++ t1)]]
          else []) ∧
      ((API.Status (w.refresh v.identity t1) v vin).sent.map Request.header
        = if w.newRequestError "GET"
            ("https://mobileapi.apps.emea.vwapps.io/vehicles/" ++ vin ++ "/status") = none
          then [[("Accept", "application/json"), ("Authorization", "Bearer " ++ t1)]]
          else []) ∧
      ((API.Action (w.refresh v.identity t1) v vin action value).sent.map Request.header
        = if w.newRequestError "POST"
            ("https://mobileapi.apps.emea.vwapps.io/vehicles/" ++ vin ++ "/" ++ action
              ++ "/" ++ value) = none
          then [[("Accept", "application/json"), ("Authorization", "Bearer " ++ t1)]]
          else []) ∧
      ((API.Any (w.refresh v.identity t1) v uri vin).sent.map Request.header
        = if w.newRequestError "GET"
            (if strings.Contains uri "%s" then fmt.Sprintf w.sprintfOther uri [vin]
              else uri) = none
          then [[("Accept", "application/json"), ("Authorization", "Bearer " ++ t1)]]
          else [])) ∧
      (((API.Vehicles ((w.refresh v.identity t1).refresh v.identity t2) v).sent.map Request.header
        = if w.newRequestError "GET"
            "https://mobileapi.apps.emea.vwapps.io/vehicles" = none
          then [[("Accept", "application/json"), ("Authorization", "Bearer " ++ t2)]]
          else []) ∧
      ((API.Status ((w.refresh v.identity t1).refresh v.identity t2) v vin).sent.map Request.header
        = if w.newRequestError "GET"
            ("https://mobileapi.apps.emea.vwapps.io/vehicles/" ++ vin ++ "/status") = none
          then [[("Accept", "application/json"), ("Authorization", "Bearer " ++ t2)]]
          else []) ∧
      ((API.Action ((w.refresh v.identity t1).refresh v.identity t2) v vin action value).sent.map Request.header
        = if w.newRequestError "POST"
            ("https://mobileapi.apps.emea.vwapps.io/vehicles/" ++ vin ++ "/" ++ action
              ++ "/" ++ value) = none
          then [[("Accept", "application/json"), ("Authorization", "Bearer " ++ t2)]]
          else []) ∧
      ((API.Any ((w.refresh v.identity t1).refresh v.identity t2) v uri vin).sent.map Request.header
        = if w.newRequestError "GET"
            (if strings.Contains uri "%s" then fmt.Sprintf w.sprintfOther uri [vin]
              else uri) = none
          then [[("Accept", "application/json"), ("Authorization", "Bearer " ++ t2)]]
          else []))) := by
  have key : ∀ w' : World, w'.newRequestError = w.newRequestError →
      w'.sprintfOther = w.sprintfOther →
      (((API.Vehicles w' v).sent.map Request.header
        = if w.newRequestError "GET"
            "https://mobileapi.apps.emea.vwapps.io/vehicles" = none
          then [[("Accept", "application/json"), ("Authorization", "Bearer " ++ (w'.identities v.identity).Token)]]
          else []) ∧
      ((API.Status w' v vin).sent.map Request.header
        = if w.newRequestError "GET"
            ("https://mobileapi.apps.emea.vwapps.io/vehicles/" ++ vin ++ "/status") = none
          then [[("Accept", "application/json"), ("Authorization", "Bearer " ++ (w'.identities v.identity).Token)]]
          else []) ∧
      ((API.Action w' v vin action value).sent.map Request.header
        = if w.newRequestError "POST"
            ("https://mobileapi.apps.emea.vwapps.io/vehicles/" ++ vin ++ "/" ++ action
              ++ "/" ++ value) = none
          then [[("Accept", "application/json"), ("Authorization", "Bearer " ++ (w'.identities v.identity).Token)]]
          else []) ∧
      ((API.Any w' v uri vin).sent.map Request.header
        = if w.newRequestError "GET"
            (if strings.Contains uri "%s" then fmt.Sprintf w.sprintfOther uri [vin]
              else uri) = none
          then [[("Accept", "application/json"), ("Authorization", "Bearer " ++ (w'.identities v.identity).Token)]]
          else [])) := by
    intro w' hn hs
    obtain ⟨h1, h2, h3, h4⟩ := requests_of_calls w' v vin action value uri
    rw [h1, h2, h3, h4, hn, hs]
    refine ⟨?_, ?_, ?_, ?_⟩ <;> simp [apply_ite (List.map Request.header)]
  refine ⟨key w rfl rfl, fun t1 t2 => ⟨?_, ?_⟩⟩
  · have h := key (w.refresh v.identity t1) rfl rfl
    simpa [World.refresh, vw.Identity.Token] using h
  · have h := key ((w.refresh v.identity t1).refresh v.identity t2) rfl rfl
    simpa [World.refresh, vw.Identity.Token] using h

theorem authorization_from_current_token_witness :
    ((API.Vehicles (demoWorld.refresh 0 "old") (NewAPI unreachable 0)).sent.map Request.header
        = [[("Accept", "application/json"), ("Authorization", "Bearer old")]] ∧
      (API.Status (demoWorld.refresh 0 "old") (NewAPI unreachable 0) "V1").sent.map
          Request.header
        = [[("Accept", "application/json"), ("Authorization", "Bearer old")]] ∧
      (API.Action (demoWorld.refresh 0 "old") (NewAPI unreachable 0) "V1" "charging"
          "start").sent.map Request.header
        = [[("Accept", "application/json"), ("Authorization", "Bearer old")]] ∧
      (API.Any (demoWorld.refresh 0 "old") (NewAPI unreachable 0) "https://x/%s/y"
          "V1").sent.map Request.header
        = [[("Accept", "application/json"), ("Authorization", "Bearer old")]]) ∧
    ((API.Vehicles ((demoWorld.refresh 0 "old").refresh 0 "new")
          (NewAPI unreachable 0)).sent.map Request.header
        = [[("Accept", "application/json"), ("Authorization", "Bearer new")]] ∧
      (API.Status ((demoWorld.refresh 0 "old").refresh 0 "new") (NewAPI unreachable 0)
          "V1").sent.map Request.header
        = [[("Accept", "application/json"), ("Authorization", "Bearer new")]] ∧
      (API.Action ((demoWorld.refresh 0 "old").refresh 0 "new") (NewAPI unreachable 0) "V1"
          "charging" "start").sent.map Request.header
        = [[("Accept", "application/json"), ("Authorization", "Bearer new")]] ∧
      (API.Any ((demoWorld.refresh 0 "old").refresh 0 "new") (NewAPI unreachable 0)
          "https://x/%s/y" "V1").sent.map Request.header
        = [[("Accept", "application/json"), ("Authorization", "Bearer new")]]) :=
  have h := (authorization_from_current_token demoWorld (NewAPI unreachable 0)
    "V1" "charging" "start" "https://x/%s/y").2 "old" "new"
  ⟨⟨h.1.1.trans (by decide), h.1.2.1.trans (by decide), h.1.2.2.1.trans (by decide),
     h.1.2.2.2.trans (by decide)⟩,
   ⟨h.2.1.trans (by decide), h.2.2.1.trans (by decide), h.2.2.2.1.trans (by decide),
     h.2.2.2.2.trans (by decide)⟩⟩

end VehicleID
